import Mathlib

/-!
Verification of the email scheduling engine (`email_scheduler.py`,
`followup_scheduler.py`) against its natural-language specification.

The development shallowly embeds the engine's pure scheduling logic:
* a Gregorian date calculus mirroring Python's `datetime.date`
  (proleptic Gregorian ordinals, as in `date.toordinal`/`date.fromordinal`;
  date comparison is chronological, i.e. comparison of ordinals);
* `get_next_anniversary_date`, `calculate_exclusion_window`,
  `is_date_in_exclusion_window`;
* the anniversary, campaign, load-balancing, frequency-limit and follow-up
  passes, with the database modelled as explicit lists / lookup functions
  passed in as arguments, and the MD5 content digest used by effective-date
  smoothing abstracted as an arbitrary function `String → Nat`.
-/

namespace Scheduler

/-! ## Date calculus (model of Python `datetime.date`) -/

/-- A calendar date, `(year, month, day)`.  Python's `datetime.date` only
holds valid dates; validity is tracked by `Date.Valid` below. -/
structure Date where
  year : Nat
  month : Nat
  day : Nat
deriving DecidableEq, Repr

/-- Gregorian leap year test, as in Python's `calendar.isleap`. -/
def isLeap (y : Nat) : Bool :=
  (y % 4 == 0 && y % 100 != 0) || (y % 400 == 0)

/-- `1` in a leap year, `0` otherwise. -/
def leapNat (y : Nat) : Nat := if isLeap y then 1 else 0

/-- Number of days in month `m` of year `y`. -/
def daysInMonth (y m : Nat) : Nat :=
  if m = 2 then 28 + leapNat y
  else if m = 4 ∨ m = 6 ∨ m = 9 ∨ m = 11 then 30
  else 31

/-- Number of days in year `y` that precede the first of month `m`. -/
def daysBeforeMonth (y m : Nat) : Nat :=
  (if 3 ≤ m then leapNat y else 0) +
  (if m ≤ 1 then 0 else if m = 2 then 31 else if m = 3 then 59 else
   if m = 4 then 90 else if m = 5 then 120 else if m = 6 then 151 else
   if m = 7 then 181 else if m = 8 then 212 else if m = 9 then 243 else
   if m = 10 then 273 else if m = 11 then 304 else 334)

/-- Number of days before January 1st of year `y` (year 1 is day 1,
as in CPython's `_days_before_year`). -/
def daysBeforeYear (y : Nat) : Nat :=
  365 * (y - 1) + (y - 1) / 4 + (y - 1) / 400 - (y - 1) / 100

/-- Proleptic Gregorian ordinal of a date; `⟨1,1,1⟩` has ordinal 1.
This is Python's `date.toordinal`.  Chronological comparison of valid
dates (Python's `date.__le__` etc.) coincides with comparison of
ordinals. -/
def toOrdinal (d : Date) : Nat :=
  daysBeforeYear d.year + daysBeforeMonth d.year d.month + d.day

/-- Month and day from a 0-based day-of-year index: scan the months,
subtracting each month's length (the month/day extraction of Python's
`date.fromordinal`).  The fuel argument counts the remaining months. -/
def monthFromDoyAux (y : Nat) : Nat → Nat → Nat → Nat × Nat
  | 0, m, doy => (m, doy + 1)
  | fuel+1, m, doy =>
    if doy < daysInMonth y m then (m, doy + 1)
    else monthFromDoyAux y fuel (m+1) (doy - daysInMonth y m)

/-- Month and day of the date whose 0-based day-of-year index in year `y`
is `doy`. -/
def monthFromDoy (y doy : Nat) : Nat × Nat := monthFromDoyAux y 11 1 doy

/-- Date from a proleptic Gregorian ordinal (Python `date.fromordinal`,
CPython's `_ord2ymd`). -/
def fromOrdinal (n : Nat) : Date :=
  if (n - 1) % 146097 % 36524 % 1461 / 365 = 4 ∨ (n - 1) % 146097 / 36524 = 4 then
    { year := 400 * ((n - 1) / 146097) + 100 * ((n - 1) % 146097 / 36524) +
        4 * ((n - 1) % 146097 % 36524 / 1461) + (n - 1) % 146097 % 36524 % 1461 / 365,
      month := 12, day := 31 }
  else
    { year := 400 * ((n - 1) / 146097) + 100 * ((n - 1) % 146097 / 36524) +
        4 * ((n - 1) % 146097 % 36524 / 1461) + (n - 1) % 146097 % 36524 % 1461 / 365 + 1,
      month := (monthFromDoy
        (400 * ((n - 1) / 146097) + 100 * ((n - 1) % 146097 / 36524) +
          4 * ((n - 1) % 146097 % 36524 / 1461) + (n - 1) % 146097 % 36524 % 1461 / 365 + 1)
        ((n - 1) % 146097 % 36524 % 1461 % 365)).1,
      day := (monthFromDoy
        (400 * ((n - 1) / 146097) + 100 * ((n - 1) % 146097 / 36524) +
          4 * ((n - 1) % 146097 % 36524 / 1461) + (n - 1) % 146097 % 36524 % 1461 / 365 + 1)
        ((n - 1) % 146097 % 36524 % 1461 % 365)).2 }

/-- `d + timedelta(days := k)` on Python dates. -/
def addDays (d : Date) (k : Int) : Date :=
  fromOrdinal ((toOrdinal d : Int) + k).toNat

/-- The date is a well-formed calendar date (Python additionally bounds
`year ≤ 9999`; that bound plays no role in the claims verified here). -/
def Date.Valid (d : Date) : Prop :=
  1 ≤ d.year ∧ 1 ≤ d.month ∧ d.month ≤ 12 ∧
  1 ≤ d.day ∧ d.day ≤ daysInMonth d.year d.month

instance (d : Date) : Decidable d.Valid := by
  unfold Date.Valid; infer_instance

theorem isLeap_iff (y : Nat) :
    isLeap y = true ↔ (y % 4 = 0 ∧ y % 100 ≠ 0) ∨ y % 400 = 0 := by
  simp [isLeap]

theorem daysBeforeMonth_succ (y m : Nat) (h1 : 1 ≤ m) (h2 : m ≤ 11) :
    daysBeforeMonth y (m+1) = daysBeforeMonth y m + daysInMonth y m := by
  have hL : leapNat y = 0 ∨ leapNat y = 1 := by
    unfold leapNat; split <;> simp
  interval_cases m <;> rcases hL with hL | hL <;>
    simp [daysBeforeMonth, daysInMonth, hL]

theorem monthFromDoyAux_spec (y : Nat) :
    ∀ fuel m doy, m + fuel = 12 → 1 ≤ m →
      doy + daysBeforeMonth y m < 365 + leapNat y →
      daysBeforeMonth y (monthFromDoyAux y fuel m doy).1 + (monthFromDoyAux y fuel m doy).2
        = doy + daysBeforeMonth y m + 1 ∧
      1 ≤ (monthFromDoyAux y fuel m doy).1 ∧ (monthFromDoyAux y fuel m doy).1 ≤ 12 ∧
      1 ≤ (monthFromDoyAux y fuel m doy).2 ∧
      (monthFromDoyAux y fuel m doy).2 ≤ daysInMonth y (monthFromDoyAux y fuel m doy).1 := by
  intro fuel
  induction fuel with
  | zero =>
    intro m doy hm h1 hdoy
    have hm12 : m = 12 := by omega
    subst hm12
    have hdim : daysInMonth y 12 = 31 := by simp [daysInMonth]
    have hdbm : daysBeforeMonth y 12 = 334 + leapNat y := by
      simp [daysBeforeMonth]; omega
    unfold monthFromDoyAux
    dsimp only
    omega
  | succ fuel ih =>
    intro m doy hm h1 hdoy
    unfold monthFromDoyAux
    split
    · next hlt => dsimp only; omega
    · next hge =>
      have hsucc : daysBeforeMonth y (m+1) = daysBeforeMonth y m + daysInMonth y m :=
        daysBeforeMonth_succ y m h1 (by omega)
      obtain ⟨e1, e2, e3, e4, e5⟩ :=
        ih (m+1) (doy - daysInMonth y m) (by omega) (by omega) (by omega)
      exact ⟨by omega, e2, e3, e4, e5⟩

theorem monthFromDoy_spec (y doy : Nat) (h : doy < 365 + leapNat y) :
    daysBeforeMonth y (monthFromDoy y doy).1 + (monthFromDoy y doy).2 = doy + 1 ∧
    1 ≤ (monthFromDoy y doy).1 ∧ (monthFromDoy y doy).1 ≤ 12 ∧
    1 ≤ (monthFromDoy y doy).2 ∧
    (monthFromDoy y doy).2 ≤ daysInMonth y (monthFromDoy y doy).1 := by
  have hdbm : daysBeforeMonth y 1 = 0 := by simp [daysBeforeMonth]
  have := monthFromDoyAux_spec y 11 1 doy (by omega) (by omega) (by omega)
  unfold monthFromDoy
  omega

theorem toOrdinal_fromOrdinal (n : Nat) (h : 1 ≤ n) :
    toOrdinal (fromOrdinal n) = n := by
  unfold fromOrdinal
  set q1 := (n-1) / 146097 with hq1
  set r1 := (n-1) % 146097 with hr1
  set q2 := r1 / 36524 with hq2
  set r2 := r1 % 36524 with hr2
  set q3 := r2 / 1461 with hq3
  set r3 := r2 % 1461 with hr3
  set f := r3 / 365 with hf
  set r4 := r3 % 365 with hr4
  have e1 : n - 1 = 146097 * q1 + r1 := by omega
  have b1 : r1 < 146097 := by omega
  have e2 : r1 = 36524 * q2 + r2 := by omega
  have b2 : r2 < 36524 := by omega
  have e3 : r2 = 1461 * q3 + r3 := by omega
  have b3 : r3 < 1461 := by omega
  have e4 : r3 = 365 * f + r4 := by omega
  have b4 : r4 < 365 := by omega
  split
  · next hcase =>
    -- December 31st of a leap year (the `n1 = 4` / `n100 = 4` branch)
    have hleap : isLeap (400 * q1 + 100 * q2 + 4 * q3 + f) = true := by
      rw [isLeap_iff]
      rcases hcase with hf4 | hq24
      · exact Or.inl ⟨by omega, by omega⟩
      · exact Or.inr (by omega)
    have hdim : daysBeforeMonth (400 * q1 + 100 * q2 + 4 * q3 + f) 12 = 335 := by
      simp [daysBeforeMonth, leapNat, hleap]
    unfold toOrdinal
    dsimp only
    rw [hdim]
    unfold daysBeforeYear
    rcases hcase with hf4 | hq24
    · have hq3le : q3 ≤ 23 := by omega
      have hq2le : q2 ≤ 3 := by omega
      have d4 : (400 * q1 + 100 * q2 + 4 * q3 + f - 1) / 4
          = 100 * q1 + 25 * q2 + q3 := by omega
      have d400 : (400 * q1 + 100 * q2 + 4 * q3 + f - 1) / 400 = q1 := by omega
      have d100 : (400 * q1 + 100 * q2 + 4 * q3 + f - 1) / 100 = 4 * q1 + q2 := by omega
      omega
    · have hr1v : r1 = 146096 := by omega
      have hq30 : q3 = 0 := by omega
      have hf0 : f = 0 := by omega
      have d4 : (400 * q1 + 100 * q2 + 4 * q3 + f - 1) / 4 = 100 * q1 + 99 := by omega
      have d400 : (400 * q1 + 100 * q2 + 4 * q3 + f - 1) / 400 = q1 := by omega
      have d100 : (400 * q1 + 100 * q2 + 4 * q3 + f - 1) / 100 = 4 * q1 + 3 := by omega
      omega
  · next hcase =>
    have hdoy : r4 < 365 + leapNat (400 * q1 + 100 * q2 + 4 * q3 + f + 1) := by omega
    obtain ⟨hsum, -, -, -, -⟩ :=
      monthFromDoy_spec (400 * q1 + 100 * q2 + 4 * q3 + f + 1) r4 hdoy
    unfold toOrdinal
    dsimp only
    unfold daysBeforeYear
    have hf3 : f ≤ 3 := by omega
    have hq2le : q2 ≤ 3 := by omega
    have hq3le : q3 ≤ 24 := by omega
    have d4 : (400 * q1 + 100 * q2 + 4 * q3 + f + 1 - 1) / 4
        = 100 * q1 + 25 * q2 + q3 := by omega
    have d400 : (400 * q1 + 100 * q2 + 4 * q3 + f + 1 - 1) / 400 = q1 := by omega
    have d100 : (400 * q1 + 100 * q2 + 4 * q3 + f + 1 - 1) / 100 = 4 * q1 + q2 := by omega
    omega

theorem toOrdinal_addDays (d : Date) (k : Int)
    (h : 1 ≤ (toOrdinal d : Int) + k) :
    (toOrdinal (addDays d k) : Int) = toOrdinal d + k := by
  unfold addDays
  rw [toOrdinal_fromOrdinal _ (by omega)]
  omega

example : addDays ⟨2024, 3, 1⟩ (-1) = ⟨2024, 2, 29⟩ := by decide
example : addDays ⟨2023, 12, 25⟩ 10 = ⟨2024, 1, 4⟩ := by decide

/-! ## Date-string parsing (model of `datetime.strptime(s, "%Y-%m-%d")`) -/

/-- Split a character list at `-` separators. -/
def splitDash (cs : List Char) (cur : List Char) : List (List Char) :=
  match cs with
  | [] => [cur.reverse]
  | c :: rest =>
    if c = '-' then cur.reverse :: splitDash rest [] else splitDash rest (c :: cur)

/-- ASCII digit test (code points 48–57), as characters. -/
def isDigitChar (c : Char) : Bool := decide (48 ≤ c.toNat ∧ c.toNat ≤ 57)

/-- Digits-only numeral; `none` on the empty list or any non-digit. -/
def digitsToNat (cs : List Char) : Option Nat :=
  if cs ≠ [] ∧ cs.all isDigitChar then
    some (cs.foldl (fun acc c => acc * 10 + (c.toNat - 48)) 0)
  else none

/-- `datetime.strptime(s, "%Y-%m-%d").date()`, returning `none` where Python
raises `ValueError`: `%Y` requires exactly four digits, `%m` and `%d` one or
two, and the resulting numbers must form a valid `datetime.date`
(year ≥ 1, 1 ≤ month ≤ 12, 1 ≤ day ≤ length of the month). -/
def parseDate (s : String) : Option Date :=
  match splitDash s.data [] with
  | [ys, ms, ds] =>
    if ys.length = 4 ∧ 1 ≤ ms.length ∧ ms.length ≤ 2 ∧ 1 ≤ ds.length ∧ ds.length ≤ 2 then
      match digitsToNat ys, digitsToNat ms, digitsToNat ds with
      | some y, some m, some d =>
        if 1 ≤ y ∧ 1 ≤ m ∧ m ≤ 12 ∧ 1 ≤ d ∧ d ≤ daysInMonth y m then
          some ⟨y, m, d⟩
        else none
      | _, _, _ => none
    else none
  | _ => none

example : parseDate "2020-02-29" = some ⟨2020, 2, 29⟩ := by decide
example : parseDate "2021-02-29" = none := by decide
example : parseDate "" = none := by decide
example : parseDate "not-a-date" = none := by decide

/-- A parsed date is a valid calendar date. -/
theorem parseDate_valid (s : String) (d : Date) (h : parseDate s = some d) :
    d.Valid := by
  unfold parseDate at h
  repeat' split at h
  all_goals cases h
  all_goals simp_all [Date.Valid]

/-! ## `get_next_anniversary_date` (email_scheduler.py:226) -/

/-- Model of `date(y, em, ed)` under the `try/except ValueError` pattern of
`get_next_anniversary_date`: invalid `(em, ed)` collapses Feb 29 to Feb 28;
any other invalid combination re-raises (modelled as `none`; unreachable
when `(em, ed)` come from a parsed, valid date). -/
def anniversaryCandidate (y em ed : Nat) : Option Date :=
  if ed ≤ daysInMonth y em then some ⟨y, em, ed⟩
  else if em = 2 ∧ ed = 29 then some ⟨y, 2, 28⟩
  else none

/-- `EmailScheduler.get_next_anniversary_date(date_str, reference_date)`.
Python's falsy test `if not date_str` also catches the empty string, which
here flows through `parseDate "" = none` to the same result. -/
def get_next_anniversary_date (date_str : Option String) (reference_date : Date) :
    Option Date :=
  match date_str with
  | none => none
  | some str =>
    match parseDate str with
    | none => none
    | some event_date =>
      match anniversaryCandidate reference_date.year event_date.month event_date.day with
      | none => none
      | some this_year_anniversary =>
        if toOrdinal this_year_anniversary ≤ toOrdinal reference_date then
          anniversaryCandidate (reference_date.year + 1) event_date.month event_date.day
        else some this_year_anniversary

/-! ## Exclusion windows (email_scheduler.py:264–323) -/

structure Contact where
  id : Nat
  email : String
  state : String
  zip_code : String
  birth_date : Option String
  effective_date : Option String
deriving DecidableEq, Repr

inductive RuleType
  | birthday_window
  | effective_date_window
  | year_round
deriving DecidableEq, Repr

structure StateRule where
  rule_type : RuleType
  window_before : Nat
  window_after : Nat
  use_month_start : Bool := false
deriving DecidableEq, Repr

/-- The `state_rules` table of `EmailScheduler.__init__`. -/
def state_rules (state : String) : Option StateRule :=
  if state = "CA" then some ⟨.birthday_window, 30, 60, false⟩
  else if state = "ID" then some ⟨.birthday_window, 0, 63, false⟩
  else if state = "KY" then some ⟨.birthday_window, 0, 60, false⟩
  else if state = "MD" then some ⟨.birthday_window, 0, 30, false⟩
  else if state = "NV" then some ⟨.birthday_window, 0, 60, true⟩
  else if state = "OK" then some ⟨.birthday_window, 0, 60, false⟩
  else if state = "OR" then some ⟨.birthday_window, 0, 31, false⟩
  else if state = "VA" then some ⟨.birthday_window, 0, 30, false⟩
  else if state = "MO" then some ⟨.effective_date_window, 30, 33, false⟩
  else if state = "CT" then some ⟨.year_round, 0, 0, false⟩
  else if state = "MA" then some ⟨.year_round, 0, 0, false⟩
  else if state = "NY" then some ⟨.year_round, 0, 0, false⟩
  else if state = "WA" then some ⟨.year_round, 0, 0, false⟩
  else none

/-- `config['pre_window_exclusion_days']`. -/
def pre_window_exclusion_days : Nat := 60

/-- `EmailScheduler.calculate_exclusion_window(contact, reference_date)`.
Python's `if not contact.birth_date` (None or empty string) and a failed
anniversary computation both yield `(None, None)`; here both flow through
`get_next_anniversary_date = none`. -/
def calculate_exclusion_window (contact : Contact) (reference_date : Date) :
    Option Date × Option Date :=
  match state_rules contact.state with
  | none => (none, none)
  | some state_rule =>
    match state_rule.rule_type with
    | .year_round =>
      (some ⟨reference_date.year, 1, 1⟩, some ⟨reference_date.year, 12, 31⟩)
    | .birthday_window =>
      match get_next_anniversary_date contact.birth_date reference_date with
      | none => (none, none)
      | some anniversary_date =>
        let window_center := if state_rule.use_month_start then
            (⟨anniversary_date.year, anniversary_date.month, 1⟩ : Date)
          else anniversary_date
        (some (addDays window_center
            (-((state_rule.window_before : Int) + pre_window_exclusion_days))),
         some (addDays window_center (state_rule.window_after : Int)))
    | .effective_date_window =>
      match get_next_anniversary_date contact.effective_date reference_date with
      | none => (none, none)
      | some anniversary_date =>
        (some (addDays anniversary_date
            (-((state_rule.window_before : Int) + pre_window_exclusion_days))),
         some (addDays anniversary_date (state_rule.window_after : Int)))

/-- `EmailScheduler.is_date_in_exclusion_window(send_date, contact)`; the
reference date used for the window is Python's `date.today()`, passed
explicitly here as `today`. -/
def is_date_in_exclusion_window (send_date : Date) (contact : Contact) (today : Date) :
    Bool :=
  match calculate_exclusion_window contact today with
  | (some window_start, some window_end) =>
    if window_start.year ≠ window_end.year then
      decide (toOrdinal window_start ≤ toOrdinal send_date) ||
      decide (toOrdinal send_date ≤ toOrdinal window_end)
    else
      decide (toOrdinal window_start ≤ toOrdinal send_date) &&
      decide (toOrdinal send_date ≤ toOrdinal window_end)
  | _ => false

example :
    get_next_anniversary_date (some "2020-02-29") ⟨2023, 6, 1⟩ = some ⟨2024, 2, 29⟩ := by
  decide

example :
    get_next_anniversary_date (some "2020-02-29") ⟨2022, 6, 1⟩ = some ⟨2023, 2, 28⟩ := by
  decide

/-! ## Claim C1 -/

/-- Spec-side description of the anniversary candidate in year `y`:
the anchor's month/day, with Feb 29 collapsing to Feb 28 when `y` is
not a leap year. -/
def collapseFeb29 (e : Date) (y : Nat) : Date :=
  if e.month = 2 ∧ e.day = 29 ∧ isLeap y = false then ⟨y, 2, 28⟩
  else ⟨y, e.month, e.day⟩

/-- Spec-side next-anniversary (the wording of the claim): the candidate in
`today`'s year if strictly after `today`, otherwise the candidate in
`today.year + 1`. -/
def nextAnniversarySpec (e today : Date) : Date :=
  if toOrdinal today < toOrdinal (collapseFeb29 e today.year) then
    collapseFeb29 e today.year
  else collapseFeb29 e (today.year + 1)

theorem anniversaryCandidate_eq (y : Nat) (e : Date) (he : e.Valid) :
    anniversaryCandidate y e.month e.day = some (collapseFeb29 e y) := by
  obtain ⟨hy, hm1, hm12, hd1, hd2⟩ := he
  have hl1 : leapNat y ≤ 1 := by unfold leapNat; split <;> omega
  have hl2 : leapNat e.year ≤ 1 := by unfold leapNat; split <;> omega
  unfold anniversaryCandidate collapseFeb29
  by_cases hm : e.month = 2
  · rw [hm] at hd2 ⊢
    have hdim2y : daysInMonth y 2 = 28 + leapNat y := by simp [daysInMonth]
    have hdim2e : daysInMonth e.year 2 = 28 + leapNat e.year := by simp [daysInMonth]
    rw [hdim2e] at hd2
    by_cases hd : e.day = 29
    · rw [hd]
      cases hley : isLeap y
      · have hnot : ¬ (29 ≤ daysInMonth y 2) := by
          rw [hdim2y]; unfold leapNat; rw [hley]; norm_num
        rw [if_neg hnot, if_pos ⟨rfl, rfl⟩, if_pos ⟨rfl, rfl, rfl⟩]
      · have hok : 29 ≤ daysInMonth y 2 := by
          rw [hdim2y]; unfold leapNat; rw [hley]; norm_num
        rw [if_pos hok, if_neg (fun hcon => by simp [hley] at hcon)]
    · have hok : e.day ≤ daysInMonth y 2 := by rw [hdim2y]; omega
      rw [if_pos hok, if_neg (fun hcon => hd hcon.2.1)]
  · have hmne : daysInMonth y e.month = daysInMonth e.year e.month := by
      unfold daysInMonth; rw [if_neg hm, if_neg hm]
    have hok : e.day ≤ daysInMonth y e.month := by rw [hmne]; exact hd2
    rw [if_pos hok, if_neg (fun hcon => hm hcon.1)]

theorem next_anniversary_eq_spec (s : String) (e today : Date)
    (hp : parseDate s = some e) :
    get_next_anniversary_date (some s) today = some (nextAnniversarySpec e today) := by
  have he := parseDate_valid s e hp
  simp only [get_next_anniversary_date, nextAnniversarySpec]
  rw [hp]
  dsimp only
  rw [anniversaryCandidate_eq today.year e he,
    anniversaryCandidate_eq (today.year + 1) e he]
  dsimp only
  by_cases hle : toOrdinal (collapseFeb29 e today.year) ≤ toOrdinal today
  · rw [if_pos hle, if_neg (by omega)]
  · rw [if_neg hle, if_pos (by omega)]

/-- C1: for a non-null, well-formed anchor date, `get_next_anniversary_date`
returns the candidate with the anchor's month/day in the reference year when
that candidate is strictly after `today`, and otherwise the candidate in
`today.year + 1`, where Feb 29 collapses to Feb 28 in non-leap target years;
it returns `none` for a null or malformed anchor; and the two leap-day
round-trip examples of the spec hold. -/
theorem claim_C1 :
    (∀ today : Date, get_next_anniversary_date none today = none) ∧
    (∀ (s : String) (today : Date), parseDate s = none →
      get_next_anniversary_date (some s) today = none) ∧
    (∀ (s : String) (e today : Date), parseDate s = some e →
      get_next_anniversary_date (some s) today = some (nextAnniversarySpec e today)) ∧
    get_next_anniversary_date (some "2020-02-29") ⟨2023, 6, 1⟩ = some ⟨2024, 2, 29⟩ ∧
    get_next_anniversary_date (some "2020-02-29") ⟨2022, 6, 1⟩ = some ⟨2023, 2, 28⟩ := by
  refine ⟨fun t => rfl, fun s t hp => ?_,
    fun s e t hp => next_anniversary_eq_spec s e t hp, by decide, by decide⟩
  simp only [get_next_anniversary_date]
  rw [hp]

/-- Witness for C1 at concrete inputs. -/
theorem claim_C1_witness :
    get_next_anniversary_date none ⟨2024, 5, 1⟩ = none ∧
    get_next_anniversary_date (some "bogus") ⟨2024, 5, 1⟩ = none ∧
    get_next_anniversary_date (some "2020-02-29") ⟨2023, 6, 1⟩
      = some (nextAnniversarySpec ⟨2020, 2, 29⟩ ⟨2023, 6, 1⟩) :=
  ⟨claim_C1.1 ⟨2024, 5, 1⟩,
   claim_C1.2.1 "bogus" ⟨2024, 5, 1⟩ (by decide),
   claim_C1.2.2.1 "2020-02-29" ⟨2020, 2, 29⟩ ⟨2023, 6, 1⟩ (by decide)⟩

/-! ## Claim C2 -/

/-- Spec-side window anchor: the anniversary, relocated to the first day of
its month when the rule's `use_month_start` flag is set (NV). -/
def anchorOf (rule : StateRule) (ann : Date) : Date :=
  if rule.use_month_start then ⟨ann.year, ann.month, 1⟩ else ann

/-- C2: `calculate_exclusion_window` returns Jan 1–Dec 31 of the reference
year for `year_round` states; for `birthday_window` / `effective_date_window`
states it returns `anchor − (window_before + pre_window_exclusion_days)` and
`anchor + window_after` around the next anniversary of the birth /
effective date (relocated to the first of the month for NV); and `none/none`
when the state has no rule or the required date is absent or malformed
(i.e. the anniversary computation returns `none`). -/
theorem claim_C2 (contact : Contact) (today : Date) :
    (state_rules contact.state = none →
      calculate_exclusion_window contact today = (none, none)) ∧
    (∀ rule, state_rules contact.state = some rule →
      (rule.rule_type = .year_round →
        calculate_exclusion_window contact today =
          (some ⟨today.year, 1, 1⟩, some ⟨today.year, 12, 31⟩)) ∧
      (rule.rule_type = .birthday_window →
        (get_next_anniversary_date contact.birth_date today = none →
          calculate_exclusion_window contact today = (none, none)) ∧
        (∀ ann, get_next_anniversary_date contact.birth_date today = some ann →
          calculate_exclusion_window contact today =
            (some (addDays (anchorOf rule ann)
                (-((rule.window_before : Int) + pre_window_exclusion_days))),
             some (addDays (anchorOf rule ann) (rule.window_after : Int))))) ∧
      (rule.rule_type = .effective_date_window →
        (get_next_anniversary_date contact.effective_date today = none →
          calculate_exclusion_window contact today = (none, none)) ∧
        (∀ ann, get_next_anniversary_date contact.effective_date today = some ann →
          calculate_exclusion_window contact today =
            (some (addDays ann
                (-((rule.window_before : Int) + pre_window_exclusion_days))),
             some (addDays ann (rule.window_after : Int)))))) := by
  refine ⟨?_, ?_⟩
  · intro hnone
    unfold calculate_exclusion_window
    rw [hnone]
  · intro rule hrule
    refine ⟨?_, ?_, ?_⟩
    · intro hyr
      unfold calculate_exclusion_window
      rw [hrule]
      dsimp only
      rw [hyr]
    · intro hbw
      refine ⟨?_, ?_⟩
      · intro hann
        unfold calculate_exclusion_window
        rw [hrule]
        dsimp only
        rw [hbw]
        dsimp only
        rw [hann]
      · intro ann hann
        unfold calculate_exclusion_window anchorOf
        rw [hrule]
        dsimp only
        rw [hbw]
        dsimp only
        rw [hann]
    · intro hed
      refine ⟨?_, ?_⟩
      · intro hann
        unfold calculate_exclusion_window
        rw [hrule]
        dsimp only
        rw [hed]
        dsimp only
        rw [hann]
      · intro ann hann
        unfold calculate_exclusion_window
        rw [hrule]
        dsimp only
        rw [hed]
        dsimp only
        rw [hann]

/-- Witness for C2: a CA contact (birthday window), an NV contact
(month-start anchor), an NY contact (year-round), and a TX contact
(no rule), all at `today = 2024-05-01`. -/
theorem claim_C2_witness :
    calculate_exclusion_window
        ⟨1, "a@b.c", "CA", "90001", some "1960-07-01", none⟩ ⟨2024, 5, 1⟩ =
      (some (addDays (anchorOf ⟨.birthday_window, 30, 60, false⟩ ⟨2024, 7, 1⟩)
          (-((30 : Int) + pre_window_exclusion_days))),
       some (addDays (anchorOf ⟨.birthday_window, 30, 60, false⟩ ⟨2024, 7, 1⟩)
          (60 : Int))) ∧
    calculate_exclusion_window
        ⟨2, "n@v.c", "NV", "89001", some "1960-07-15", none⟩ ⟨2024, 5, 1⟩ =
      (some (addDays (anchorOf ⟨.birthday_window, 0, 60, true⟩ ⟨2024, 7, 15⟩)
          (-((0 : Int) + pre_window_exclusion_days))),
       some (addDays (anchorOf ⟨.birthday_window, 0, 60, true⟩ ⟨2024, 7, 15⟩)
          (60 : Int))) ∧
    calculate_exclusion_window
        ⟨3, "n@y.c", "NY", "10001", some "1960-07-01", none⟩ ⟨2024, 5, 1⟩ =
      (some ⟨2024, 1, 1⟩, some ⟨2024, 12, 31⟩) ∧
    calculate_exclusion_window
        ⟨4, "t@x.c", "TX", "75001", some "1960-07-01", none⟩ ⟨2024, 5, 1⟩ =
      (none, none) :=
  ⟨(((claim_C2 ⟨1, "a@b.c", "CA", "90001", some "1960-07-01", none⟩
      ⟨2024, 5, 1⟩).2 ⟨.birthday_window, 30, 60, false⟩ (by decide)).2.1
      (by decide)).2 ⟨2024, 7, 1⟩ (by decide),
   (((claim_C2 ⟨2, "n@v.c", "NV", "89001", some "1960-07-15", none⟩
      ⟨2024, 5, 1⟩).2 ⟨.birthday_window, 0, 60, true⟩ (by decide)).2.1
      (by decide)).2 ⟨2024, 7, 15⟩ (by decide),
   ((claim_C2 ⟨3, "n@y.c", "NY", "10001", some "1960-07-01", none⟩
      ⟨2024, 5, 1⟩).2 ⟨.year_round, 0, 0, false⟩ (by decide)).1 (by decide),
   (claim_C2 ⟨4, "t@x.c", "TX", "75001", some "1960-07-01", none⟩
      ⟨2024, 5, 1⟩).1 (by decide)⟩

/-! ## Claim C3 -/

theorem anniversaryCandidate_fields (y em ed : Nat) (c : Date)
    (h : anniversaryCandidate y em ed = some c) :
    c.year = y ∧ (c.day = ed ∨ c.day = 28) := by
  unfold anniversaryCandidate at h
  split at h
  · injection h with h; subst h; exact ⟨rfl, Or.inl rfl⟩
  · split at h
    · injection h with h; subst h; exact ⟨rfl, Or.inr rfl⟩
    · exact Option.noConfusion h

/-- The anniversary lies in the reference year or the year after, and has a
positive day-of-month. -/
theorem next_anniversary_year_day (d : Option String) (t ann : Date)
    (h : get_next_anniversary_date d t = some ann) :
    (ann.year = t.year ∨ ann.year = t.year + 1) ∧ 1 ≤ ann.day := by
  unfold get_next_anniversary_date at h
  rcases d with - | str
  · exact Option.noConfusion h
  · dsimp only at h
    rcases hp : parseDate str with - | e
    · rw [hp] at h; exact Option.noConfusion h
    · rw [hp] at h
      dsimp only at h
      have he := parseDate_valid str e hp
      obtain ⟨-, -, -, hd1, -⟩ := he
      rcases hc : anniversaryCandidate t.year e.month e.day with - | c
      · rw [hc] at h; exact Option.noConfusion h
      · rw [hc] at h
        dsimp only at h
        split at h
        · obtain ⟨hy, hd⟩ := anniversaryCandidate_fields _ _ _ _ h
          exact ⟨Or.inr hy, by omega⟩
        · injection h with h; subst h
          obtain ⟨hy, hd⟩ := anniversaryCandidate_fields _ _ _ _ hc
          exact ⟨Or.inl hy, by omega⟩

/-- Every state rule in the table has `window_before ≤ 30` and
`window_after ≤ 63`. -/
theorem state_rules_bounds (st : String) (rule : StateRule)
    (h : state_rules st = some rule) :
    rule.window_before ≤ 30 ∧ rule.window_after ≤ 63 := by
  unfold state_rules at h
  by_cases h1 : st = "CA"
  · rw [if_pos h1] at h; injection h with h; subst h
    exact ⟨by norm_num, by norm_num⟩
  rw [if_neg h1] at h
  by_cases h2 : st = "ID"
  · rw [if_pos h2] at h; injection h with h; subst h
    exact ⟨by norm_num, by norm_num⟩
  rw [if_neg h2] at h
  by_cases h3 : st = "KY"
  · rw [if_pos h3] at h; injection h with h; subst h
    exact ⟨by norm_num, by norm_num⟩
  rw [if_neg h3] at h
  by_cases h4 : st = "MD"
  · rw [if_pos h4] at h; injection h with h; subst h
    exact ⟨by norm_num, by norm_num⟩
  rw [if_neg h4] at h
  by_cases h5 : st = "NV"
  · rw [if_pos h5] at h; injection h with h; subst h
    exact ⟨by norm_num, by norm_num⟩
  rw [if_neg h5] at h
  by_cases h6 : st = "OK"
  · rw [if_pos h6] at h; injection h with h; subst h
    exact ⟨by norm_num, by norm_num⟩
  rw [if_neg h6] at h
  by_cases h7 : st = "OR"
  · rw [if_pos h7] at h; injection h with h; subst h
    exact ⟨by norm_num, by norm_num⟩
  rw [if_neg h7] at h
  by_cases h8 : st = "VA"
  · rw [if_pos h8] at h; injection h with h; subst h
    exact ⟨by norm_num, by norm_num⟩
  rw [if_neg h8] at h
  by_cases h9 : st = "MO"
  · rw [if_pos h9] at h; injection h with h; subst h
    exact ⟨by norm_num, by norm_num⟩
  rw [if_neg h9] at h
  by_cases h10 : st = "CT"
  · rw [if_pos h10] at h; injection h with h; subst h
    exact ⟨by norm_num, by norm_num⟩
  rw [if_neg h10] at h
  by_cases h11 : st = "MA"
  · rw [if_pos h11] at h; injection h with h; subst h
    exact ⟨by norm_num, by norm_num⟩
  rw [if_neg h11] at h
  by_cases h12 : st = "NY"
  · rw [if_pos h12] at h; injection h with h; subst h
    exact ⟨by norm_num, by norm_num⟩
  rw [if_neg h12] at h
  by_cases h13 : st = "WA"
  · rw [if_pos h13] at h; injection h with h; subst h
    exact ⟨by norm_num, by norm_num⟩
  rw [if_neg h13] at h
  exact Option.noConfusion h

theorem toOrdinal_ge (d : Date) (hy : 2 ≤ d.year) (hd : 1 ≤ d.day) :
    366 ≤ toOrdinal d := by
  have hdiv : (d.year - 1) / 100 ≤ (d.year - 1) / 4 :=
    Nat.div_le_div_left (by norm_num) (by norm_num)
  unfold toOrdinal daysBeforeYear
  omega

theorem window_ord_le (center : Date) (k1 k2 : Int)
    (hc : 366 ≤ toOrdinal center) (h1 : -90 ≤ k1) (h1b : k1 ≤ 0) (h2 : 0 ≤ k2) :
    toOrdinal (addDays center k1) ≤ toOrdinal (addDays center k2) := by
  have e1 := toOrdinal_addDays center k1 (by omega)
  have e2 := toOrdinal_addDays center k2 (by omega)
  omega

/-- C3: whenever the computed exclusion window has `start` and `end` in
different calendar years, the year-spanning membership test of
`is_date_in_exclusion_window` (`send ≥ start OR send ≤ end`) accepts every
send date, because `start ≤ end` holds as actual calendar dates. -/
theorem claim_C3 (contact : Contact) (today : Date) (ht : 2 ≤ today.year)
    (ws we : Date)
    (hw : calculate_exclusion_window contact today = (some ws, some we))
    (hne : ws.year ≠ we.year) :
    ∀ send_date : Date, is_date_in_exclusion_window send_date contact today = true := by
  have hord : toOrdinal ws ≤ toOrdinal we := by
    have hw0 := hw
    unfold calculate_exclusion_window at hw0
    rcases hr : state_rules contact.state with - | rule
    · rw [hr] at hw0
      injection hw0 with hwa hwb
      exact Option.noConfusion hwa
    · rw [hr] at hw0
      dsimp only at hw0
      obtain ⟨hb, ha⟩ := state_rules_bounds contact.state rule hr
      rcases hrt : rule.rule_type with - | - | -
      all_goals (rw [hrt] at hw0; dsimp only at hw0)
      · -- birthday_window
        rcases hann : get_next_anniversary_date contact.birth_date today with - | ann
        · rw [hann] at hw0
          injection hw0 with hwa hwb
          exact Option.noConfusion hwa
        · rw [hann] at hw0
          dsimp only at hw0
          obtain ⟨hyr, hd1⟩ := next_anniversary_year_day _ _ _ hann
          injection hw0 with hw1 hw2
          injection hw1 with hw1
          injection hw2 with hw2
          subst hw1; subst hw2
          apply window_ord_le
          · apply toOrdinal_ge
            · split <;> (try dsimp only) <;> omega
            · split <;> (try dsimp only) <;> omega
          · simp only [pre_window_exclusion_days]; push_cast; omega
          · simp only [pre_window_exclusion_days]; push_cast; omega
          · omega
      · -- effective_date_window
        rcases hann : get_next_anniversary_date contact.effective_date today with - | ann
        · rw [hann] at hw0
          injection hw0 with hwa hwb
          exact Option.noConfusion hwa
        · rw [hann] at hw0
          dsimp only at hw0
          obtain ⟨hyr, hd1⟩ := next_anniversary_year_day _ _ _ hann
          injection hw0 with hw1 hw2
          injection hw1 with hw1
          injection hw2 with hw2
          subst hw1; subst hw2
          apply window_ord_le
          · exact toOrdinal_ge ann (by omega) hd1
          · simp only [pre_window_exclusion_days]; push_cast; omega
          · simp only [pre_window_exclusion_days]; push_cast; omega
          · omega
      · -- year_round: start and end share the reference year
        injection hw0 with hw1 hw2
        injection hw1 with hw1
        injection hw2 with hw2
        subst hw1; subst hw2
        exact absurd rfl hne
  intro send_date
  unfold is_date_in_exclusion_window
  rw [hw]
  dsimp only
  rw [if_pos hne]
  simp only [Bool.or_eq_true, decide_eq_true_eq]
  omega

/-- Witness for C3: a KY contact with a mid-January birthday seen from
December 2024 has a window from 2024-11-16 to 2025-03-16, and an arbitrary
date far outside it (2024-06-15) still tests as in-window. -/
theorem claim_C3_witness :
    calculate_exclusion_window
        ⟨5, "k@y.c", "KY", "40001", some "1960-01-15", none⟩ ⟨2024, 12, 1⟩ =
      (some ⟨2024, 11, 16⟩, some ⟨2025, 3, 16⟩) ∧
    is_date_in_exclusion_window ⟨2024, 6, 15⟩
      ⟨5, "k@y.c", "KY", "40001", some "1960-01-15", none⟩ ⟨2024, 12, 1⟩ = true :=
  ⟨by decide,
   claim_C3 ⟨5, "k@y.c", "KY", "40001", some "1960-01-15", none⟩ ⟨2024, 12, 1⟩
     (by norm_num) ⟨2024, 11, 16⟩ ⟨2025, 3, 16⟩ (by decide) (by decide) ⟨2024, 6, 15⟩⟩

/-! ## Email schedules and the anniversary pipeline (email_scheduler.py:363–483)

The opaque per-run fields (`scheduler_run_id`, a UUID shared by every row of
a run) are omitted from the row model; no claim mentions them. -/

structure EmailSchedule where
  contact_id : Nat
  email_type : String
  scheduled_send_date : Date
  scheduled_send_time : String
  status : String
  skip_reason : Option String
  priority : Nat
  campaign_instance_id : Option Nat
  email_template : Option String
  sms_template : Option String
  event_year : Option Nat
  event_month : Option Nat
  event_day : Option Nat
deriving DecidableEq, Repr

/-- `config['send_time']`. -/
def send_time : String := "08:30:00"
/-- `config['birthday_email_days_before']`. -/
def birthday_email_days_before : Nat := 14
/-- `config['effective_date_days_before']`. -/
def effective_date_days_before : Nat := 30
/-- `config['aep_month']`. -/
def aep_month : Nat := 9
/-- `config['aep_day']`. -/
def aep_day : Nat := 15
/-- `config['max_emails_per_period']`. -/
def max_emails_per_period : Nat := 5
/-- `config['period_days']`. -/
def period_days : Nat := 30
/-- `config['ed_daily_soft_limit']`. -/
def ed_daily_soft_limit : Nat := 15
/-- `config['ed_smoothing_window_days']`. -/
def ed_smoothing_window_days : Nat := 5

/-- The birthday block of `schedule_anniversary_emails`: Python's falsy test
on `contact.birth_date` (None or empty string) and a failed anniversary
computation both produce no row, and both flow through
`get_next_anniversary_date = none` here. -/
def birthday_rows (contact : Contact) (today : Date) : List EmailSchedule :=
  match get_next_anniversary_date contact.birth_date today with
  | none => []
  | some birthday_anniversary =>
    let send_date := addDays birthday_anniversary (-(birthday_email_days_before : Int))
    if toOrdinal today ≤ toOrdinal send_date then
      let is_excluded := is_date_in_exclusion_window send_date contact today
      [{ contact_id := contact.id
         email_type := "birthday"
         scheduled_send_date := send_date
         scheduled_send_time := send_time
         status := if is_excluded then "skipped" else "pre-scheduled"
         skip_reason := if is_excluded then some "exclusion_window" else none
         priority := 5
         campaign_instance_id := none
         email_template := some "birthday_default"
         sms_template := none
         event_year := some birthday_anniversary.year
         event_month := some birthday_anniversary.month
         event_day := some birthday_anniversary.day }]
    else []

/-- The effective-date block of `schedule_anniversary_emails`. -/
def effective_date_rows (contact : Contact) (today : Date) : List EmailSchedule :=
  match get_next_anniversary_date contact.effective_date today with
  | none => []
  | some ed_anniversary =>
    let send_date := addDays ed_anniversary (-(effective_date_days_before : Int))
    if toOrdinal today ≤ toOrdinal send_date then
      let is_excluded := is_date_in_exclusion_window send_date contact today
      [{ contact_id := contact.id
         email_type := "effective_date"
         scheduled_send_date := send_date
         scheduled_send_time := send_time
         status := if is_excluded then "skipped" else "pre-scheduled"
         skip_reason := if is_excluded then some "exclusion_window" else none
         priority := 5
         campaign_instance_id := none
         email_template := some "effective_date_default"
         sms_template := none
         event_year := some ed_anniversary.year
         event_month := some ed_anniversary.month
         event_day := some ed_anniversary.day }]
    else []

/-- The AEP date of `schedule_anniversary_emails`: Sept 15 of this year, or
next year's when this year's has passed. -/
def aep_send_date (today : Date) : Date :=
  if toOrdinal (⟨today.year, aep_month, aep_day⟩ : Date) ≤ toOrdinal today then
    ⟨today.year + 1, aep_month, aep_day⟩
  else ⟨today.year, aep_month, aep_day⟩

/-- The AEP block of `schedule_anniversary_emails` (always emitted). -/
def aep_row (contact : Contact) (today : Date) : EmailSchedule :=
  let aep_date := aep_send_date today
  let is_excluded := is_date_in_exclusion_window aep_date contact today
  { contact_id := contact.id
    email_type := "aep"
    scheduled_send_date := aep_date
    scheduled_send_time := send_time
    status := if is_excluded then "skipped" else "pre-scheduled"
    skip_reason := if is_excluded then some "exclusion_window" else none
    priority := 5
    campaign_instance_id := none
    email_template := some "aep_default"
    sms_template := none
    event_year := some aep_date.year
    event_month := some aep_date.month
    event_day := some aep_date.day }

/-- The post-window block of `schedule_anniversary_emails`, applied to the
contact's rows produced so far (`base`). -/
def post_window_rows (contact : Contact) (today : Date)
    (base : List EmailSchedule) : List EmailSchedule :=
  if (base.filter (fun s0 => s0.status == "skipped")) ≠ [] then
    match (calculate_exclusion_window contact today).2 with
    | some exclusion_window_end =>
      let post_window_date := addDays exclusion_window_end 1
      if toOrdinal today ≤ toOrdinal post_window_date then
        [{ contact_id := contact.id
           email_type := "post_window"
           scheduled_send_date := post_window_date
           scheduled_send_time := send_time
           status := "pre-scheduled"
           skip_reason := none
           priority := 3
           campaign_instance_id := none
           email_template := some "post_window_default"
           sms_template := none
           event_year := some post_window_date.year
           event_month := some post_window_date.month
           event_day := some post_window_date.day }]
      else []
    | none => []
  else []

/-- The per-contact body of the loop in `schedule_anniversary_emails`. -/
def contact_anniversary_schedules (contact : Contact) (today : Date) :
    List EmailSchedule :=
  let base := birthday_rows contact today ++ effective_date_rows contact today ++
    [aep_row contact today]
  base ++ post_window_rows contact today base

/-- `EmailScheduler.schedule_anniversary_emails(contacts)`; Python's
`date.today()` is the explicit `today`. -/
def schedule_anniversary_emails (contacts : List Contact) (today : Date) :
    List EmailSchedule :=
  contacts.flatMap (fun c => contact_anniversary_schedules c today)

/-! ## Campaign pipeline (email_scheduler.py:523–601)

The SQL queries are modelled as explicit inputs: the list of active
campaign instances, the `campaign_types` lookup (returning `none` for a
missing or inactive type), and the raw `contact_campaigns` rows. -/

structure CampaignType where
  name : String
  respect_exclusion_windows : Bool
  enable_followups : Bool
  days_before_event : Int
  target_all_contacts : Bool
  priority : Nat
deriving DecidableEq, Repr

/-- An active campaign instance (the activity-date filtering happens in the
SQL of `get_active_campaign_instances`; its `metadata` is not modelled). -/
structure CampaignInstance where
  id : Nat
  campaign_type : String
  instance_name : String
  email_template : Option String
  sms_template : Option String
deriving DecidableEq, Repr

/-- A `contact_campaigns` row. -/
structure ContactCampaignRow where
  contact_id : Nat
  campaign_instance_id : Nat
  trigger_date : Option String
  status : String
deriving DecidableEq, Repr

/-- Insert with Python-dict semantics (later keys overwrite earlier ones). -/
def dictInsert (d : List (Nat × Option String)) (k : Nat) (v : Option String) :
    List (Nat × Option String) :=
  if d.any (fun p => p.1 == k) then
    d.map (fun p => if p.1 == k then (k, v) else p)
  else d ++ [(k, v)]

/-- The `campaign_targets` dict comprehension: pending memberships of the
instance, keyed by contact id (last one wins, as in a Python dict). -/
def campaign_targets (rows : List ContactCampaignRow) (inst_id : Nat) :
    List (Nat × Option String) :=
  (rows.filter (fun r =>
    r.campaign_instance_id == inst_id && r.status == "pending")).foldl
    (fun d r => dictInsert d r.contact_id r.trigger_date) []

/-- The per-contact body of the inner loop of `schedule_campaign_emails`.
`none` models a `continue` (no row written): untargeted contact, NULL or
empty trigger date, unparseable trigger date (an empty string flows through
`parseDate "" = none` to the same outcome), or a send date before today. -/
def process_campaign_contact (ct : CampaignType) (inst : CampaignInstance)
    (targets : List (Nat × Option String)) (contact : Contact) (today : Date) :
    Option EmailSchedule :=
  match targets.lookup contact.id with
  | none => none
  | some none => none
  | some (some trigger_str) =>
    match parseDate trigger_str with
    | none => none
    | some trigger_date =>
      let send_date := addDays trigger_date (-ct.days_before_event)
      if toOrdinal send_date < toOrdinal today then none
      else
        let is_excluded := ct.respect_exclusion_windows &&
          is_date_in_exclusion_window send_date contact today
        some { contact_id := contact.id
               email_type := "campaign_" ++ ct.name
               scheduled_send_date := send_date
               scheduled_send_time := send_time
               status := if is_excluded then "skipped" else "pre-scheduled"
               skip_reason := if is_excluded then some "exclusion_window" else none
               priority := ct.priority
               campaign_instance_id := some inst.id
               email_template := inst.email_template
               sms_template := inst.sms_template
               event_year := some trigger_date.year
               event_month := some trigger_date.month
               event_day := some trigger_date.day }

/-- `EmailScheduler.schedule_campaign_emails(contacts)`.  A missing or
inactive campaign type skips the whole instance (logged) and the pass
continues. -/
def schedule_campaign_emails (instances : List CampaignInstance)
    (campaign_types : String → Option CampaignType)
    (memberships : List ContactCampaignRow)
    (contacts : List Contact) (today : Date) : List EmailSchedule :=
  instances.foldl (fun schedules inst =>
    match campaign_types inst.campaign_type with
    | none => schedules
    | some ct =>
      schedules ++ contacts.filterMap (fun c =>
        process_campaign_contact ct inst (campaign_targets memberships inst.id)
          c today)) []

/-! ## Load balancing (email_scheduler.py:603–659)

`daily_cap` is Python's `int(total_contacts * 0.07)`, passed in as a value;
`int(daily_cap * 0.3)` is modelled as `daily_cap * 3 / 10`; the MD5 content
digest is abstracted as the function argument `md5_hash` (any pure digest of
the jitter string).  The final daily-cap overage loop only logs warnings and
does not alter the rows, so it is not part of the output model. -/

/-- `ed_daily_counts[...]`: pre-scheduled effective-date rows per calendar
day, computed over the input list before any smoothing. -/
def ed_daily_count (schedules : List EmailSchedule) (d : Date) : Nat :=
  (schedules.filter (fun s0 => s0.status == "pre-scheduled" &&
    s0.email_type == "effective_date" && s0.scheduled_send_date == d)).length

/-- Python's `f"{contact_id}_{email_type}_{event_year}"` (a missing
`event_year` prints as `None`). -/
def event_year_str : Option Nat → String
  | some y => toString y
  | none => "None"

/-- The jitter input string of `apply_load_balancing`. -/
def jitter_input (s0 : EmailSchedule) : String :=
  toString s0.contact_id ++ "_" ++ s0.email_type ++ "_" ++ event_year_str s0.event_year

/-- The smoothing applied to one row by the loop of `apply_load_balancing`:
an effective-date pre-scheduled row on a day that carries more than the soft
limit is shifted by `(md5(jitter_input) mod ed_smoothing_window_days) − 2`
days, and only when the shifted date is on or after today; every other row
is returned unchanged. -/
def smooth_row (md5_hash : String → Nat) (ed_soft_limit : Nat) (today : Date)
    (schedules : List EmailSchedule) (s0 : EmailSchedule) : EmailSchedule :=
  if s0.email_type == "effective_date" && s0.status == "pre-scheduled" &&
      decide (ed_soft_limit < ed_daily_count schedules s0.scheduled_send_date) then
    let jitter_days : Int := (md5_hash (jitter_input s0) % ed_smoothing_window_days : Nat) - 2
    let new_date := addDays s0.scheduled_send_date jitter_days
    if toOrdinal today ≤ toOrdinal new_date then
      { s0 with scheduled_send_date := new_date }
    else s0
  else s0

/-- `EmailScheduler.apply_load_balancing(schedules)`. -/
def apply_load_balancing (md5_hash : String → Nat) (daily_cap : Nat) (today : Date)
    (schedules : List EmailSchedule) : List EmailSchedule :=
  schedules.map
    (smooth_row md5_hash (min ed_daily_soft_limit (daily_cap * 3 / 10)) today schedules)

/-! ## Frequency limiter (email_scheduler.py:661–702)

The SQL count of recent rows per contact is computed from an explicit list
of pre-existing `email_schedules` rows.  SQLite compares the ISO date
strings, which for well-formed dates is chronological comparison, modelled
on ordinals; `NOT LIKE 'followup\_%'` is the prefix test. -/

/-- A pre-existing `email_schedules` row (the fields the frequency query
reads). -/
structure ExistingEmail where
  contact_id : Nat
  email_type : String
  scheduled_send_date : Date
  status : String
deriving DecidableEq, Repr

/-- `recent_counts.get(contact_id, 0)`: rows of the contact with status
sent/delivered/pre-scheduled, date in `[today − period_days, today)`, and a
non-follow-up type. -/
def recent_email_count (existing : List ExistingEmail) (today : Date) (cid : Nat) :
    Nat :=
  (existing.filter (fun r =>
    r.contact_id == cid &&
    decide (toOrdinal (addDays today (-(period_days : Int))) ≤ toOrdinal r.scheduled_send_date) &&
    decide (toOrdinal r.scheduled_send_date < toOrdinal today) &&
    (r.status == "sent" || r.status == "delivered" || r.status == "pre-scheduled") &&
    ! ("followup_".isPrefixOf r.email_type))).length

/-- The sort key `(s.priority, s.scheduled_send_date)` of
`enforce_frequency_limits`, as a total `≤` test. -/
def schedule_le (a b : EmailSchedule) : Bool :=
  decide (a.priority < b.priority ∨
    (a.priority = b.priority ∧
      toOrdinal a.scheduled_send_date ≤ toOrdinal b.scheduled_send_date))

/-- Marking a row skipped for the frequency limit. -/
def mark_frequency_skipped (s0 : EmailSchedule) : EmailSchedule :=
  { s0 with status := "skipped", skip_reason := some "frequency_limit" }

/-- The walk of `enforce_frequency_limits` over the sorted list: admit while
`recent + already admitted in this run < max_emails_per_period`, otherwise
mark skipped with reason `frequency_limit` and keep the row. -/
def freq_walk (recent : Nat → Nat) (counts : Nat → Nat) :
    List EmailSchedule → List EmailSchedule
  | [] => []
  | s0 :: rest =>
    if recent s0.contact_id + counts s0.contact_id < max_emails_per_period then
      s0 :: freq_walk recent
        (fun c => if c = s0.contact_id then counts c + 1 else counts c) rest
    else
      mark_frequency_skipped s0 :: freq_walk recent counts rest

/-- `EmailScheduler.enforce_frequency_limits(schedules)`.  Python's stable
`list.sort` with key `(priority, date)` is the stable `List.mergeSort` with
the corresponding total `≤`. -/
def enforce_frequency_limits (existing : List ExistingEmail) (today : Date)
    (schedules : List EmailSchedule) : List EmailSchedule :=
  freq_walk (recent_email_count existing today) (fun _ => 0)
    (schedules.mergeSort schedule_le)

/-! ## Follow-up scheduler (followup_scheduler.py)

The follow-up pass's database queries are abstracted as an environment of
lookup functions; the JSON metadata blob written with each row is not
modelled (the structured fields, including `initial_email_id`, are). -/

/-- A sent/delivered source row eligible for a follow-up. -/
structure EmailSent where
  id : Nat
  contact_id : Nat
  email_type : String
  scheduled_send_date : Date
  campaign_instance_id : Option Nat
deriving DecidableEq, Repr

/-- Behaviour booleans from `get_contact_behavior`. -/
structure ContactBehavior where
  clicked_links : Bool := false
  answered_health_questions : Bool := false
  has_medical_conditions : Bool := false
deriving DecidableEq, Repr

structure FollowupSchedule where
  contact_id : Nat
  email_type : String
  scheduled_send_date : Date
  scheduled_send_time : String
  status : String
  priority : Nat
  initial_email_id : Nat
  campaign_instance_id : Option Nat
  email_template : String
  sms_template : Option String
deriving DecidableEq, Repr

/-- The follow-up pass's view of the database:
`enable_followups` is `check_campaign_followup_enabled`;
`contact_info` returns `(state, birth_date, effective_date)` of a contact;
`behavior` is `get_contact_behavior` (clicks and eligibility events after
the source date); `template_override` is the campaign-metadata
`followup_templates` lookup of `get_followup_template`; `campaign_priority`
is the campaign-type priority join of `get_followup_priority`. -/
structure FollowupEnv where
  enable_followups : Nat → Bool
  contact_info : Nat → Option (String × Option String × Option String)
  behavior : Nat → Date → ContactBehavior
  template_override : Nat → String → Option (String × Option String)
  campaign_priority : Nat → Option Nat

/-- `config['followup_days_after']`. -/
def followup_days_after : Nat := 2

/-- `FollowupScheduler.determine_followup_type(behavior)`. -/
def determine_followup_type (b : ContactBehavior) : String :=
  if b.answered_health_questions then
    if b.has_medical_conditions then "followup_4_hq_with_yes"
    else "followup_3_hq_no_yes"
  else if b.clicked_links then "followup_2_clicked_no_hq"
  else "followup_1_cold"

/-- `FollowupScheduler.calculate_followup_send_date(initial_email_date)`:
source date + 2 days, or tomorrow when that has passed. -/
def calculate_followup_send_date (initial_email_date today : Date) : Date :=
  let followup_date := addDays initial_email_date (followup_days_after : Int)
  let tomorrow := addDays today 1
  if toOrdinal followup_date < toOrdinal tomorrow then tomorrow else followup_date

/-- The default template map of `get_followup_template`. -/
def default_followup_template (t : String) : String :=
  if t = "followup_1_cold" then "followup_cold_template"
  else if t = "followup_2_clicked_no_hq" then "followup_clicked_template"
  else if t = "followup_3_hq_no_yes" then "followup_hq_no_conditions_template"
  else if t = "followup_4_hq_with_yes" then "followup_hq_with_conditions_template"
  else "followup_default_template"

/-- `FollowupScheduler.get_followup_template`. -/
def get_followup_template (env : FollowupEnv) (t : String) (ci : Option Nat) :
    String × Option String :=
  match ci with
  | none => (default_followup_template t, none)
  | some cid =>
    match env.template_override cid t with
    | some over => over
    | none => (default_followup_template t, none)

/-- `FollowupScheduler.get_followup_priority`. -/
def get_followup_priority (env : FollowupEnv) (t : String) (ci : Option Nat) : Nat :=
  let base := if t = "followup_4_hq_with_yes" then 1
    else if t = "followup_3_hq_no_yes" then 2
    else if t = "followup_2_clicked_no_hq" then 3
    else if t = "followup_1_cold" then 4
    else 5
  match ci with
  | none => base
  | some cid =>
    match env.campaign_priority cid with
    | some cp => min base (cp + 1)
    | none => base

/-- `FollowupScheduler.is_date_in_exclusion_window(send_date, contact_id)`:
the simplified check of the follow-up pass — `True` exactly for the four
year-round states, regardless of the send date; `False` otherwise and for
unknown contacts. -/
def followup_is_date_in_exclusion_window (env : FollowupEnv) (_send_date : Date)
    (contact_id : Nat) : Bool :=
  match env.contact_info contact_id with
  | none => false
  | some (st, _, _) => st == "CT" || st == "MA" || st == "NY" || st == "WA"

/-- The body of the loop of `schedule_followups` after the campaign
follow-up-enabled check. -/
def followup_row (env : FollowupEnv) (ie : EmailSent) (today : Date) :
    Option FollowupSchedule :=
  let behavior := env.behavior ie.contact_id ie.scheduled_send_date
  let followup_type := determine_followup_type behavior
  let send_date := calculate_followup_send_date ie.scheduled_send_date today
  if followup_is_date_in_exclusion_window env send_date ie.contact_id then none
  else
    let templates := get_followup_template env followup_type ie.campaign_instance_id
    some { contact_id := ie.contact_id
           email_type := followup_type
           scheduled_send_date := send_date
           scheduled_send_time := send_time
           status := "pre-scheduled"
           priority := get_followup_priority env followup_type ie.campaign_instance_id
           initial_email_id := ie.id
           campaign_instance_id := ie.campaign_instance_id
           email_template := templates.1
           sms_template := templates.2 }

/-- `FollowupScheduler.schedule_followups(initial_emails)`. -/
def schedule_followups (env : FollowupEnv) (initial_emails : List EmailSent)
    (today : Date) : List FollowupSchedule :=
  initial_emails.filterMap (fun ie =>
    match ie.campaign_instance_id with
    | some cid =>
      if env.enable_followups cid then followup_row env ie today else none
    | none => followup_row env ie today)

/-! ## Row-level facts about the anniversary pipeline -/

theorem birthday_rows_mem (c : Contact) (t : Date) (r : EmailSchedule)
    (h : r ∈ birthday_rows c t) :
    r.email_type = "birthday" ∧ r.priority = 5 ∧
    (r.status = "skipped" ∨ r.status = "pre-scheduled") ∧
    (r.status = "skipped" → r.skip_reason = some "exclusion_window") ∧
    toOrdinal t ≤ toOrdinal r.scheduled_send_date := by
  unfold birthday_rows at h
  rcases hann : get_next_anniversary_date c.birth_date t with - | ann
  · rw [hann] at h; simp at h
  · rw [hann] at h
    dsimp only at h
    split at h
    · next hge =>
      rw [List.mem_singleton] at h
      subst h
      cases hex : is_date_in_exclusion_window
          (addDays ann (-(birthday_email_days_before : Int))) c t <;>
        simp_all
    · simp at h

theorem effective_date_rows_mem (c : Contact) (t : Date) (r : EmailSchedule)
    (h : r ∈ effective_date_rows c t) :
    r.email_type = "effective_date" ∧ r.priority = 5 ∧
    (r.status = "skipped" ∨ r.status = "pre-scheduled") ∧
    (r.status = "skipped" → r.skip_reason = some "exclusion_window") ∧
    toOrdinal t ≤ toOrdinal r.scheduled_send_date := by
  unfold effective_date_rows at h
  rcases hann : get_next_anniversary_date c.effective_date t with - | ann
  · rw [hann] at h; simp at h
  · rw [hann] at h
    dsimp only at h
    split at h
    · next hge =>
      rw [List.mem_singleton] at h
      subst h
      cases hex : is_date_in_exclusion_window
          (addDays ann (-(effective_date_days_before : Int))) c t <;>
        simp_all
    · simp at h

theorem aep_row_fields (c : Contact) (t : Date) :
    (aep_row c t).email_type = "aep" ∧ (aep_row c t).priority = 5 ∧
    ((aep_row c t).status = "skipped" ∨ (aep_row c t).status = "pre-scheduled") ∧
    ((aep_row c t).status = "skipped" →
      (aep_row c t).skip_reason = some "exclusion_window") ∧
    (aep_row c t).scheduled_send_date = aep_send_date t := by
  unfold aep_row
  cases hex : is_date_in_exclusion_window (aep_send_date t) c t <;> simp_all

theorem post_window_rows_mem (c : Contact) (t : Date) (base : List EmailSchedule)
    (r : EmailSchedule) (h : r ∈ post_window_rows c t base) :
    ∃ we, (calculate_exclusion_window c t).2 = some we ∧
      r.email_type = "post_window" ∧
      r.scheduled_send_date = addDays we 1 ∧
      r.status = "pre-scheduled" ∧ r.priority = 3 ∧
      r.email_template = some "post_window_default" ∧
      toOrdinal t ≤ toOrdinal r.scheduled_send_date := by
  unfold post_window_rows at h
  split at h
  · rcases hwe : (calculate_exclusion_window c t).2 with - | we
    · rw [hwe] at h; simp at h
    · rw [hwe] at h
      dsimp only at h
      split at h
      · next hge =>
        rw [List.mem_singleton] at h
        subst h
        exact ⟨we, rfl, rfl, rfl, rfl, rfl, rfl, hge⟩
      · simp at h
  · simp at h

theorem post_window_rows_ne_nil (c : Contact) (t : Date) (base : List EmailSchedule) :
    post_window_rows c t base ≠ [] ↔
      (∃ r ∈ base, r.status = "skipped") ∧
      ∃ we, (calculate_exclusion_window c t).2 = some we ∧
        toOrdinal t ≤ toOrdinal (addDays we 1) := by
  unfold post_window_rows
  constructor
  · intro h
    split at h
    · next hfil =>
      have hex : ∃ r ∈ base, r.status = "skipped" := by
        rcases List.exists_mem_of_ne_nil _ hfil with ⟨r, hr⟩
        have hm := List.mem_filter.mp hr
        exact ⟨r, hm.1, by simpa using hm.2⟩
      rcases hwe : (calculate_exclusion_window c t).2 with - | we
      · rw [hwe] at h; simp at h
      · rw [hwe] at h
        dsimp only at h
        split at h
        · next hge => exact ⟨hex, we, rfl, hge⟩
        · simp at h
    · simp at h
  · rintro ⟨⟨r, hr, hst⟩, we, hwe, hge⟩
    have hfil : (base.filter (fun s0 => s0.status == "skipped")) ≠ [] := by
      intro hnil
      have := List.filter_eq_nil_iff.mp hnil r hr
      simp [hst] at this
    rw [if_pos hfil, hwe]
    dsimp only
    rw [if_pos hge]
    simp

/-! ## Claim C6 -/

theorem base_rows_mem (c : Contact) (t : Date) (r : EmailSchedule)
    (hr : r ∈ birthday_rows c t ++ effective_date_rows c t ++ [aep_row c t]) :
    r.email_type ≠ "post_window" ∧
    (r.status = "skipped" → r.skip_reason = some "exclusion_window") := by
  rcases List.mem_append.mp hr with hr' | hr'
  · rcases List.mem_append.mp hr' with hb | he
    · obtain ⟨ht, -, -, hsk, -⟩ := birthday_rows_mem c t r hb
      exact ⟨by rw [ht]; decide, hsk⟩
    · obtain ⟨ht, -, -, hsk, -⟩ := effective_date_rows_mem c t r he
      exact ⟨by rw [ht]; decide, hsk⟩
  · rw [List.mem_singleton] at hr'
    subst hr'
    obtain ⟨ht, -, -, hsk, -⟩ := aep_row_fields c t
    exact ⟨by rw [ht]; decide, hsk⟩

/-- C6: a `post_window` row is emitted for a contact iff one of the
contact's birthday / effective-date / aep rows was skipped for exclusion,
the window end is computable, and `window_end + 1` is on or after today;
the emitted row carries `send = window_end + 1`, status `pre-scheduled`,
priority 3 and template `post_window_default`. -/
theorem claim_C6 (contact : Contact) (today : Date) :
    ((∃ r ∈ contact_anniversary_schedules contact today,
        r.email_type = "post_window") ↔
      ((∃ r ∈ contact_anniversary_schedules contact today,
          r.email_type ≠ "post_window" ∧ r.status = "skipped" ∧
          r.skip_reason = some "exclusion_window") ∧
       ∃ we, (calculate_exclusion_window contact today).2 = some we ∧
         toOrdinal today ≤ toOrdinal (addDays we 1))) ∧
    ∀ r ∈ contact_anniversary_schedules contact today,
      r.email_type = "post_window" →
      ∃ we, (calculate_exclusion_window contact today).2 = some we ∧
        r.scheduled_send_date = addDays we 1 ∧ r.status = "pre-scheduled" ∧
        r.priority = 3 ∧ r.email_template = some "post_window_default" := by
  unfold contact_anniversary_schedules
  constructor
  · constructor
    · rintro ⟨r, hr, htype⟩
      rcases List.mem_append.mp hr with hrb | hrp
      · exact absurd htype (base_rows_mem contact today r hrb).1
      · have hne : post_window_rows contact today
            (birthday_rows contact today ++ effective_date_rows contact today ++
              [aep_row contact today]) ≠ [] := by
          intro hnil
          rw [hnil] at hrp
          simp at hrp
        obtain ⟨⟨rs, hrs, hst⟩, we, hwe, hge⟩ :=
          (post_window_rows_ne_nil contact today _).mp hne
        refine ⟨⟨rs, List.mem_append_left _ hrs,
          (base_rows_mem contact today rs hrs).1, hst,
          (base_rows_mem contact today rs hrs).2 hst⟩, we, hwe, hge⟩
    · rintro ⟨⟨r, hr, -, hst, -⟩, we, hwe, hge⟩
      have hrb : r ∈ birthday_rows contact today ++ effective_date_rows contact today ++
          [aep_row contact today] := by
        rcases List.mem_append.mp hr with hrb | hrp
        · exact hrb
        · obtain ⟨we', -, htype, -, hpre, -⟩ :=
            post_window_rows_mem contact today _ r hrp
          rw [hpre] at hst
          exact absurd hst (by decide)
      have hne := (post_window_rows_ne_nil contact today
        (birthday_rows contact today ++ effective_date_rows contact today ++
          [aep_row contact today])).mpr ⟨⟨r, hrb, hst⟩, we, hwe, hge⟩
      obtain ⟨rp, hrp⟩ := List.exists_mem_of_ne_nil _ hne
      obtain ⟨we', -, htype, -, -, -, -⟩ :=
        post_window_rows_mem contact today _ rp hrp
      exact ⟨rp, List.mem_append_right _ hrp, htype⟩
  · intro r hr htype
    rcases List.mem_append.mp hr with hrb | hrp
    · exact absurd htype (base_rows_mem contact today r hrb).1
    · obtain ⟨we, hwe, -, hdate, hpre, hprio, htpl, -⟩ :=
        post_window_rows_mem contact today _ r hrp
      exact ⟨we, hwe, hdate, hpre, hprio, htpl⟩

/-- Witness for C6: the spec's scenario 1 — a CA contact born 1960-07-01
seen from 2024-05-01 has its birthday row skipped for exclusion and gets a
post-window row for 2024-08-31 (window end 2024-08-30 plus one day). -/
theorem claim_C6_witness :
    (∃ r ∈ contact_anniversary_schedules
        ⟨1, "a@b.c", "CA", "90001", some "1960-07-01", none⟩ ⟨2024, 5, 1⟩,
      r.email_type = "post_window") ∧
    ∃ we, (calculate_exclusion_window
        ⟨1, "a@b.c", "CA", "90001", some "1960-07-01", none⟩ ⟨2024, 5, 1⟩).2 =
          some we ∧
      (⟨1, "post_window", ⟨2024, 8, 31⟩, "08:30:00", "pre-scheduled", none, 3,
        none, some "post_window_default", none, some 2024, some 8, some 31⟩ :
          EmailSchedule).scheduled_send_date = addDays we 1 ∧
      (⟨1, "post_window", ⟨2024, 8, 31⟩, "08:30:00", "pre-scheduled", none, 3,
        none, some "post_window_default", none, some 2024, some 8, some 31⟩ :
          EmailSchedule).status = "pre-scheduled" ∧
      (⟨1, "post_window", ⟨2024, 8, 31⟩, "08:30:00", "pre-scheduled", none, 3,
        none, some "post_window_default", none, some 2024, some 8, some 31⟩ :
          EmailSchedule).priority = 3 ∧
      (⟨1, "post_window", ⟨2024, 8, 31⟩, "08:30:00", "pre-scheduled", none, 3,
        none, some "post_window_default", none, some 2024, some 8, some 31⟩ :
          EmailSchedule).email_template = some "post_window_default" :=
  ⟨(claim_C6 ⟨1, "a@b.c", "CA", "90001", some "1960-07-01", none⟩
      ⟨2024, 5, 1⟩).1.mpr ⟨by decide, ⟨2024, 8, 30⟩, by decide, by decide⟩,
   (claim_C6 ⟨1, "a@b.c", "CA", "90001", some "1960-07-01", none⟩
      ⟨2024, 5, 1⟩).2
     ⟨1, "post_window", ⟨2024, 8, 31⟩, "08:30:00", "pre-scheduled", none, 3,
        none, some "post_window_default", none, some 2024, some 8, some 31⟩
     (by decide) (by decide)⟩

/-! ## Claim C5 -/

set_option maxHeartbeats 1000000 in
theorem daysBeforeYear_succ (y : Nat) (h : 1 ≤ y) :
    daysBeforeYear (y+1) = daysBeforeYear y + 365 + leapNat y := by
  unfold leapNat
  by_cases hc : isLeap y = true
  · rw [if_pos hc]
    rw [isLeap_iff] at hc
    unfold daysBeforeYear
    omega
  · rw [if_neg hc]
    rw [isLeap_iff] at hc
    unfold daysBeforeYear
    omega

theorem dayOfYear_le_aux (y m dd : Nat) (hm1 : 1 ≤ m) (hm2 : m ≤ 12)
    (hd2 : dd ≤ daysInMonth y m) :
    daysBeforeMonth y m + dd ≤ 365 + leapNat y := by
  have hl : leapNat y ≤ 1 := by unfold leapNat; split <;> omega
  interval_cases m <;>
    (unfold daysInMonth at hd2; unfold daysBeforeMonth;
     norm_num at hd2 ⊢; omega)

/-- A valid date's within-year offset is at most the year length. -/
theorem dayOfYear_le (d : Date) (hv : d.Valid) :
    daysBeforeMonth d.year d.month + d.day ≤ 365 + leapNat d.year :=
  dayOfYear_le_aux d.year d.month d.day hv.2.1 hv.2.2.1 hv.2.2.2.2

/-- The AEP date chosen by the pipeline is strictly after today. -/
theorem aep_send_date_gt (t : Date) (ht : t.Valid) :
    toOrdinal t < toOrdinal (aep_send_date t) := by
  have hy : 1 ≤ t.year := ht.1
  have hdo := dayOfYear_le t ht
  have h9 : ∀ y, daysBeforeMonth y aep_month = 243 + leapNat y := by
    intro y
    unfold daysBeforeMonth aep_month
    norm_num
    omega
  unfold aep_send_date
  split
  · next hle =>
    unfold toOrdinal
    dsimp only
    rw [daysBeforeYear_succ t.year hy, h9]
    unfold aep_day
    omega
  · next hgt => omega

/-- Every row the anniversary pipeline emits (skipped rows included) has its
send date on or after today. -/
theorem anniversary_rows_ge_today (contacts : List Contact) (today : Date)
    (ht : today.Valid) :
    ∀ r ∈ schedule_anniversary_emails contacts today,
      toOrdinal today ≤ toOrdinal r.scheduled_send_date := by
  intro r hr
  unfold schedule_anniversary_emails at hr
  rcases List.mem_flatMap.mp hr with ⟨c, -, hmem⟩
  unfold contact_anniversary_schedules at hmem
  rcases List.mem_append.mp hmem with hb | hp
  · rcases List.mem_append.mp hb with hb' | hb'
    · rcases List.mem_append.mp hb' with hbb | hbe
      · exact (birthday_rows_mem c today r hbb).2.2.2.2
      · exact (effective_date_rows_mem c today r hbe).2.2.2.2
    · rw [List.mem_singleton] at hb'
      subst hb'
      obtain ⟨-, -, -, -, hdate⟩ := aep_row_fields c today
      rw [hdate]
      exact le_of_lt (aep_send_date_gt today ht)
  · obtain ⟨we, -, -, -, -, -, -, hge⟩ := post_window_rows_mem c today _ r hp
    exact hge

/-- Every row the campaign pipeline emits has its send date on or after
today (rows with earlier dates are discarded). -/
theorem campaign_rows_ge_today (instances : List CampaignInstance)
    (campaign_types : String → Option CampaignType)
    (memberships : List ContactCampaignRow)
    (contacts : List Contact) (today : Date) :
    ∀ r ∈ schedule_campaign_emails instances campaign_types memberships contacts today,
      toOrdinal today ≤ toOrdinal r.scheduled_send_date := by
  have hproc : ∀ ct inst targets c r,
      process_campaign_contact ct inst targets c today = some r →
      toOrdinal today ≤ toOrdinal r.scheduled_send_date := by
    intro ct inst targets c r h
    unfold process_campaign_contact at h
    rcases hl : targets.lookup c.id with - | t0
    · rw [hl] at h; exact Option.noConfusion h
    · rw [hl] at h
      rcases t0 with - | tstr
      · exact Option.noConfusion h
      · dsimp only at h
        rcases hpd : parseDate tstr with - | trigger
        · rw [hpd] at h; exact Option.noConfusion h
        · rw [hpd] at h
          dsimp only at h
          split at h
          · exact Option.noConfusion h
          · next hge =>
            injection h with h
            subst h
            show toOrdinal today ≤ toOrdinal (addDays trigger (-ct.days_before_event))
            omega
  unfold schedule_campaign_emails
  suffices hgen : ∀ (insts : List CampaignInstance) (acc : List EmailSchedule),
      (∀ r ∈ acc, toOrdinal today ≤ toOrdinal r.scheduled_send_date) →
      ∀ r ∈ insts.foldl (fun schedules inst =>
        match campaign_types inst.campaign_type with
        | none => schedules
        | some ct =>
          schedules ++ contacts.filterMap (fun c =>
            process_campaign_contact ct inst (campaign_targets memberships inst.id)
              c today)) acc,
        toOrdinal today ≤ toOrdinal r.scheduled_send_date by
    exact hgen instances [] (by intro r hr; simp at hr)
  intro insts
  induction insts with
  | nil => intro acc hacc r hr; exact hacc r hr
  | cons inst rest ih =>
    intro acc hacc r hr
    rw [List.foldl_cons] at hr
    refine ih _ ?_ r hr
    intro r' hr'
    try dsimp only at hr'
    rcases hct : campaign_types inst.campaign_type with - | ct
    · rw [hct] at hr'
      exact hacc r' hr'
    · rw [hct] at hr'
      dsimp only at hr'
      rcases List.mem_append.mp hr' with h' | h'
      · exact hacc r' h'
      · rcases List.mem_filterMap.mp h' with ⟨c, -, hp⟩
        exact hproc ct inst _ c r' hp

/-- Load balancing preserves statuses and keeps every date on or after
today provided the input rows were. -/
theorem load_balancing_ge_today (md5_hash : String → Nat) (daily_cap : Nat)
    (today : Date) (schedules : List EmailSchedule)
    (hin : ∀ r ∈ schedules, toOrdinal today ≤ toOrdinal r.scheduled_send_date) :
    ∀ r ∈ apply_load_balancing md5_hash daily_cap today schedules,
      toOrdinal today ≤ toOrdinal r.scheduled_send_date := by
  intro r hr
  unfold apply_load_balancing at hr
  rcases List.mem_map.mp hr with ⟨r0, hr0, heq⟩
  subst heq
  unfold smooth_row
  split
  · next hcond =>
    dsimp only
    split
    · next hge => exact hge
    · exact hin r0 hr0
  · exact hin r0 hr0

/-- The frequency walk returns each sorted row either unchanged or marked
`skipped`/`frequency_limit`. -/
theorem freq_walk_mem (recent counts : Nat → Nat) (L : List EmailSchedule) :
    ∀ r ∈ freq_walk recent counts L,
      r ∈ L ∨ ∃ r0 ∈ L, r = mark_frequency_skipped r0 := by
  induction L generalizing counts with
  | nil => intro r hr; simp [freq_walk] at hr
  | cons s0 rest ih =>
    intro r hr
    unfold freq_walk at hr
    split at hr
    · rcases List.mem_cons.mp hr with h | h
      · exact Or.inl (h ▸ List.mem_cons_self s0 rest)
      · rcases ih _ r h with h' | ⟨r0, hr0, heq⟩
        · exact Or.inl (List.mem_cons_of_mem _ h')
        · exact Or.inr ⟨r0, List.mem_cons_of_mem _ hr0, heq⟩
    · rcases List.mem_cons.mp hr with h | h
      · exact Or.inr ⟨s0, List.mem_cons_self s0 rest, h⟩
      · rcases ih _ r h with h' | ⟨r0, hr0, heq⟩
        · exact Or.inl (List.mem_cons_of_mem _ h')
        · exact Or.inr ⟨r0, List.mem_cons_of_mem _ hr0, heq⟩

/-- The frequency limiter does not change any row's send date, so dates on
or after today stay that way. -/
theorem enforce_frequency_ge_today (existing : List ExistingEmail) (today : Date)
    (schedules : List EmailSchedule)
    (hin : ∀ r ∈ schedules, toOrdinal today ≤ toOrdinal r.scheduled_send_date) :
    ∀ r ∈ enforce_frequency_limits existing today schedules,
      toOrdinal today ≤ toOrdinal r.scheduled_send_date := by
  intro r hr
  unfold enforce_frequency_limits at hr
  rcases freq_walk_mem _ _ _ r hr with h | ⟨r0, hr0, heq⟩
  · exact hin r (List.mem_mergeSort.mp h)
  · subst heq
    exact hin r0 (List.mem_mergeSort.mp hr0)

/-- The follow-up send date is strictly after today (at least tomorrow). -/
theorem followup_send_date_gt (d today : Date) :
    toOrdinal today < toOrdinal (calculate_followup_send_date d today) := by
  have htom := toOrdinal_addDays today 1 (by omega)
  simp only [calculate_followup_send_date]
  split
  · next hlt => omega
  · next hge => omega

/-- C5: every row either pass emits with status `pre-scheduled` has its
send date on or after today — anniversary and campaign candidates with past
dates are not emitted, smoothing never moves a date before today, the
frequency limiter only re-marks statuses, and follow-up send dates are at
least tomorrow. -/
theorem claim_C5 :
    (∀ (md5_hash : String → Nat) (daily_cap : Nat)
       (existing : List ExistingEmail)
       (instances : List CampaignInstance)
       (campaign_types : String → Option CampaignType)
       (memberships : List ContactCampaignRow)
       (contacts : List Contact) (today : Date), today.Valid →
      ∀ r ∈ enforce_frequency_limits existing today
          (apply_load_balancing md5_hash daily_cap today
            (schedule_anniversary_emails contacts today ++
             schedule_campaign_emails instances campaign_types memberships
               contacts today)),
        r.status = "pre-scheduled" →
        toOrdinal today ≤ toOrdinal r.scheduled_send_date) ∧
    (∀ (env : FollowupEnv) (initial_emails : List EmailSent) (today : Date),
      ∀ r ∈ schedule_followups env initial_emails today,
        r.status = "pre-scheduled" ∧
        toOrdinal today < toOrdinal r.scheduled_send_date) := by
  constructor
  · intro md5_hash daily_cap existing instances campaign_types memberships
      contacts today ht r hr hpre
    refine enforce_frequency_ge_today existing today _ ?_ r hr
    refine load_balancing_ge_today md5_hash daily_cap today _ ?_
    intro r' hr'
    rcases List.mem_append.mp hr' with h | h
    · exact anniversary_rows_ge_today contacts today ht r' h
    · exact campaign_rows_ge_today instances campaign_types memberships
        contacts today r' h
  · intro env initial_emails today r hr
    unfold schedule_followups at hr
    rcases List.mem_filterMap.mp hr with ⟨ie, -, hp⟩
    have hrow : followup_row env ie today = some r := by
      rcases hci : ie.campaign_instance_id with - | cid
      · rw [hci] at hp; exact hp
      · rw [hci] at hp
        dsimp only at hp
        split at hp
        · exact hp
        · exact Option.noConfusion hp
    simp only [followup_row] at hrow
    split at hrow
    · exact Option.noConfusion hrow
    · injection hrow with hrow
      subst hrow
      exact ⟨rfl, followup_send_date_gt ie.scheduled_send_date today⟩

unseal List.merge List.mergeSort in
/-- Witness for C5 at concrete inputs: a TX contact's birthday row survives
the whole main pass dated 2024-02-25 ≥ today = 2024-01-01, and a follow-up
to a birthday mail sent 2024-06-17 lands on 2024-06-21 > today =
2024-06-20. -/
theorem claim_C5_witness :
    toOrdinal (⟨2024, 1, 1⟩ : Date) ≤ toOrdinal (⟨2024, 2, 25⟩ : Date) ∧
    toOrdinal (⟨2024, 6, 20⟩ : Date) < toOrdinal (⟨2024, 6, 21⟩ : Date) :=
  ⟨claim_C5.1 (fun _ => 0) 0 [] [] (fun _ => none) []
      [⟨4, "t@x.c", "TX", "75001", some "1970-03-10", none⟩] ⟨2024, 1, 1⟩
      (by decide)
      ⟨4, "birthday", ⟨2024, 2, 25⟩, "08:30:00", "pre-scheduled", none, 5,
        none, some "birthday_default", none, some 2024, some 3, some 10⟩
      (by decide) (by decide),
   (claim_C5.2 ⟨fun _ => true, fun _ => none, fun _ _ => {}, fun _ _ => none,
      fun _ => none⟩ [⟨10, 7, "birthday", ⟨2024, 6, 17⟩, none⟩] ⟨2024, 6, 20⟩
      ⟨7, "followup_1_cold", ⟨2024, 6, 21⟩, "08:30:00", "pre-scheduled", 4, 10,
        none, "followup_cold_template", none⟩
      (by decide)).2⟩

/-! ## Claim C4 -/

/-- Spec-side admission walk, in the claim's words: walking the sorted
proposals in order, a row is admitted iff the carry-over plus the number of
rows already admitted for the same contact in this run is strictly below
`max_emails_per_period`; otherwise it is marked skipped with reason
`frequency_limit` and kept in the output. -/
def admitted_walk (carry : Nat → Nat) (admitted : List EmailSchedule) :
    List EmailSchedule → List EmailSchedule
  | [] => []
  | s0 :: rest =>
    if carry s0.contact_id +
        (admitted.filter (fun a => a.contact_id == s0.contact_id)).length <
        max_emails_per_period then
      s0 :: admitted_walk carry (admitted ++ [s0]) rest
    else
      mark_frequency_skipped s0 :: admitted_walk carry admitted rest

theorem freq_walk_eq_admitted (recent : Nat → Nat) :
    ∀ (L : List EmailSchedule) (counts : Nat → Nat) (adm : List EmailSchedule),
      (∀ cid, counts cid = (adm.filter (fun a => a.contact_id == cid)).length) →
      freq_walk recent counts L = admitted_walk recent adm L := by
  intro L
  induction L with
  | nil => intros; rfl
  | cons s0 rest ih =>
    intro counts adm hinv
    unfold freq_walk admitted_walk
    rw [hinv s0.contact_id]
    split
    · next hlt =>
      congr 1
      apply ih
      intro cid
      dsimp only
      rw [List.filter_append, List.length_append, ← hinv cid]
      by_cases hc : cid = s0.contact_id
      · subst hc
        rw [if_pos rfl]
        simp [List.filter]
      · rw [if_neg hc]
        have hbeq : (s0.contact_id == cid) = false := by
          simp [Ne.symm hc]
        simp [List.filter, hbeq]
    · next hge =>
      congr 1
      exact ih counts adm hinv

/-- C4: `enforce_frequency_limits` walks the candidates in
`(priority asc, send date asc)` order (the sorted list is a permutation of
the input, pairwise ordered by the key), counts the contact's existing
non-follow-up sent/delivered/pre-scheduled rows dated in
`[today − period_days, today)` as carry-over, admits a row iff carry-over
plus rows already admitted for that contact is strictly below
`max_emails_per_period`, and otherwise marks it skipped with reason
`frequency_limit` while keeping it in the output. -/
theorem claim_C4 (existing : List ExistingEmail) (today : Date)
    (schedules : List EmailSchedule) :
    (schedules.mergeSort schedule_le).Perm schedules ∧
    List.Pairwise (fun a b => schedule_le a b = true)
      (schedules.mergeSort schedule_le) ∧
    enforce_frequency_limits existing today schedules =
      admitted_walk (recent_email_count existing today) []
        (schedules.mergeSort schedule_le) := by
  refine ⟨List.mergeSort_perm _ _, List.sorted_mergeSort ?_ ?_ _, ?_⟩
  · intro a b c hab hbc
    simp only [schedule_le, decide_eq_true_eq] at *
    omega
  · intro a b
    simp only [schedule_le, Bool.or_eq_true, decide_eq_true_eq]
    omega
  · unfold enforce_frequency_limits
    exact freq_walk_eq_admitted (recent_email_count existing today) _ (fun _ => 0)
      [] (fun cid => by simp)

/-! ## Claim C10 -/

/-- C10: the frequency walk treats every row as a proposal regardless of its
status.  A row already skipped with reason `exclusion_window` is, when the
budget allows, emitted unchanged while incrementing the contact's admitted
count (consuming one budget unit); once the budget is exhausted its
`skip_reason` is overwritten from `exclusion_window` to `frequency_limit`. -/
theorem claim_C10 :
    ∀ (recent counts : Nat → Nat) (s0 : EmailSchedule)
      (rest : List EmailSchedule),
      s0.status = "skipped" → s0.skip_reason = some "exclusion_window" →
      (recent s0.contact_id + counts s0.contact_id < max_emails_per_period →
        freq_walk recent counts (s0 :: rest) =
          s0 :: freq_walk recent
            (fun c => if c = s0.contact_id then counts c + 1 else counts c)
            rest) ∧
      (¬ recent s0.contact_id + counts s0.contact_id < max_emails_per_period →
        freq_walk recent counts (s0 :: rest) =
          { s0 with status := "skipped", skip_reason := some "frequency_limit" } ::
            freq_walk recent counts rest) := by
  intro recent counts s0 rest hst hsr
  constructor
  · intro hlt
    simp only [freq_walk]
    rw [if_pos hlt]
  · intro hge
    simp only [freq_walk]
    rw [if_neg hge]
    simp only [mark_frequency_skipped]

/-- Witness for C10: with carry-over 4 an exclusion-skipped row for contact
7 is admitted unchanged (consuming the last budget unit); with carry-over 5
its skip reason is overwritten to `frequency_limit`. -/
theorem claim_C10_witness :
    freq_walk (fun _ => 4) (fun _ => 0)
        [⟨7, "birthday", ⟨2024, 6, 1⟩, "08:30:00", "skipped",
          some "exclusion_window", 5, none, some "birthday_default", none,
          some 2024, some 6, some 15⟩] =
      [⟨7, "birthday", ⟨2024, 6, 1⟩, "08:30:00", "skipped",
        some "exclusion_window", 5, none, some "birthday_default", none,
        some 2024, some 6, some 15⟩] ∧
    freq_walk (fun _ => 5) (fun _ => 0)
        [⟨7, "birthday", ⟨2024, 6, 1⟩, "08:30:00", "skipped",
          some "exclusion_window", 5, none, some "birthday_default", none,
          some 2024, some 6, some 15⟩] =
      [⟨7, "birthday", ⟨2024, 6, 1⟩, "08:30:00", "skipped",
        some "frequency_limit", 5, none, some "birthday_default", none,
        some 2024, some 6, some 15⟩] := by
  constructor
  · rw [(claim_C10 (fun _ => 4) (fun _ => 0)
      ⟨7, "birthday", ⟨2024, 6, 1⟩, "08:30:00", "skipped",
        some "exclusion_window", 5, none, some "birthday_default", none,
        some 2024, some 6, some 15⟩ [] rfl rfl).1 (by decide)]
    rfl
  · rw [(claim_C10 (fun _ => 5) (fun _ => 0)
      ⟨7, "birthday", ⟨2024, 6, 1⟩, "08:30:00", "skipped",
        some "exclusion_window", 5, none, some "birthday_default", none,
        some 2024, some 6, some 15⟩ [] rfl rfl).2 (by decide)]
    rfl

/-! ## Claim C8 -/

/-- C8: effective-date smoothing is a pure, deterministic function of its
input.  `apply_load_balancing` maps `smooth_row` over the rows with the soft
limit `min(ed_daily_soft_limit, daily_cap·3/10)`; `smooth_row` leaves every
row unchanged unless it is a pre-scheduled `effective_date` row whose day
carries more than the soft limit; a shifted row moves by
`(digest of "<contact_id>_<email_type>_<event_year>") mod
ed_smoothing_window_days − 2` days — always in `[−2, 2]` for the window of
5 — and only when the shifted date is on or after today; and two runs over
equal inputs produce identical schedules. -/
theorem claim_C8 :
    (∀ (md5_hash : String → Nat) (daily_cap : Nat) (today : Date)
       (schedules : List EmailSchedule),
      apply_load_balancing md5_hash daily_cap today schedules =
        schedules.map (smooth_row md5_hash
          (min ed_daily_soft_limit (daily_cap * 3 / 10)) today schedules)) ∧
    (∀ (md5_hash : String → Nat) (lim : Nat) (today : Date)
       (schedules : List EmailSchedule) (s0 : EmailSchedule),
      ¬ (s0.email_type = "effective_date" ∧ s0.status = "pre-scheduled" ∧
          lim < ed_daily_count schedules s0.scheduled_send_date) →
      smooth_row md5_hash lim today schedules s0 = s0) ∧
    (∀ (md5_hash : String → Nat) (lim : Nat) (today : Date)
       (schedules : List EmailSchedule) (s0 : EmailSchedule),
      s0.email_type = "effective_date" → s0.status = "pre-scheduled" →
      lim < ed_daily_count schedules s0.scheduled_send_date →
      smooth_row md5_hash lim today schedules s0 =
        if toOrdinal today ≤ toOrdinal (addDays s0.scheduled_send_date
            (((md5_hash (jitter_input s0) % ed_smoothing_window_days : Nat) : Int) - 2))
        then
          { s0 with scheduled_send_date := (addDays s0.scheduled_send_date
              (((md5_hash (jitter_input s0) % ed_smoothing_window_days : Nat) : Int) - 2)) }
        else s0) ∧
    (∀ (md5_hash : String → Nat) (str : String),
      -2 ≤ ((md5_hash str % ed_smoothing_window_days : Nat) : Int) - 2 ∧
      ((md5_hash str % ed_smoothing_window_days : Nat) : Int) - 2 ≤ 2) ∧
    (∀ (md5_hash : String → Nat) (daily_cap : Nat) (today : Date)
       (s1 s2 : List EmailSchedule), s1 = s2 →
      apply_load_balancing md5_hash daily_cap today s1 =
        apply_load_balancing md5_hash daily_cap today s2) := by
  refine ⟨fun _ _ _ _ => rfl, ?_, ?_, ?_, ?_⟩
  · intro md5_hash lim today schedules s0 hneg
    unfold smooth_row
    rw [if_neg]
    simp only [Bool.and_eq_true, beq_iff_eq, decide_eq_true_eq]
    intro hcon
    exact hneg ⟨hcon.1.1, hcon.1.2, hcon.2⟩
  · intro md5_hash lim today schedules s0 he hs hcount
    unfold smooth_row
    rw [if_pos]
    simp only [Bool.and_eq_true, beq_iff_eq, decide_eq_true_eq]
    exact ⟨⟨he, hs⟩, hcount⟩
  · intro md5_hash str
    have h5 : md5_hash str % ed_smoothing_window_days < 5 := by
      have he : ed_smoothing_window_days = 5 := rfl
      rw [he]
      omega
    constructor <;> omega
  · intro md5_hash daily_cap today s1 s2 h12
    rw [h12]

/-- Witness for C8: a pre-scheduled effective-date row on an overloaded day
is shifted by `9 mod 5 − 2 = +2` days under a digest returning 9, while a
birthday row is untouched; the offset bound holds at the same digest. -/
theorem claim_C8_witness :
    smooth_row (fun _ => 9) 0 ⟨2024, 1, 1⟩
        [⟨8, "effective_date", ⟨2024, 6, 1⟩, "08:30:00", "pre-scheduled", none,
          5, none, some "effective_date_default", none, some 2024, some 7, some 1⟩]
        ⟨8, "effective_date", ⟨2024, 6, 1⟩, "08:30:00", "pre-scheduled", none,
          5, none, some "effective_date_default", none, some 2024, some 7, some 1⟩ =
      ⟨8, "effective_date", ⟨2024, 6, 3⟩, "08:30:00", "pre-scheduled", none,
        5, none, some "effective_date_default", none, some 2024, some 7, some 1⟩ ∧
    smooth_row (fun _ => 9) 0 ⟨2024, 1, 1⟩ []
        ⟨9, "birthday", ⟨2024, 6, 1⟩, "08:30:00", "pre-scheduled", none,
          5, none, some "birthday_default", none, some 2024, some 6, some 15⟩ =
      ⟨9, "birthday", ⟨2024, 6, 1⟩, "08:30:00", "pre-scheduled", none,
        5, none, some "birthday_default", none, some 2024, some 6, some 15⟩ ∧
    -2 ≤ (((fun (_ : String) => 9) "x" % ed_smoothing_window_days : Nat) : Int) - 2 ∧
    (((fun (_ : String) => 9) "x" % ed_smoothing_window_days : Nat) : Int) - 2 ≤ 2 :=
  ⟨(claim_C8.2.2.1 (fun _ => 9) 0 ⟨2024, 1, 1⟩
      [⟨8, "effective_date", ⟨2024, 6, 1⟩, "08:30:00", "pre-scheduled", none,
        5, none, some "effective_date_default", none, some 2024, some 7, some 1⟩]
      ⟨8, "effective_date", ⟨2024, 6, 1⟩, "08:30:00", "pre-scheduled", none,
        5, none, some "effective_date_default", none, some 2024, some 7, some 1⟩
      rfl rfl (by decide)).trans (by decide),
   claim_C8.2.1 (fun _ => 9) 0 ⟨2024, 1, 1⟩ []
      ⟨9, "birthday", ⟨2024, 6, 1⟩, "08:30:00", "pre-scheduled", none,
        5, none, some "birthday_default", none, some 2024, some 6, some 15⟩
      (by intro hcon; exact absurd hcon.1 (by decide)),
   (claim_C8.2.2.2.1 (fun _ => 9) "x").1,
   (claim_C8.2.2.2.1 (fun _ => 9) "x").2⟩

/-! ## Claim C9 -/

/-- C9: a pending membership whose trigger date is missing (NULL) or
malformed, or whose computed send date `trigger − days_before_event` is
strictly before today, produces no schedule row at all — and the pass
continues over the remaining contacts as if the bad membership were not
there (recoverable issues never halt the pass). -/
theorem claim_C9 :
    (∀ (ct : CampaignType) (inst : CampaignInstance)
       (targets : List (Nat × Option String)) (c : Contact) (today : Date),
      (targets.lookup c.id = some none ∨
       (∃ tstr, targets.lookup c.id = some (some tstr) ∧ parseDate tstr = none) ∨
       (∃ tstr trigger, targets.lookup c.id = some (some tstr) ∧
          parseDate tstr = some trigger ∧
          toOrdinal (addDays trigger (-ct.days_before_event)) < toOrdinal today)) →
      process_campaign_contact ct inst targets c today = none) ∧
    (∀ (ct : CampaignType) (inst : CampaignInstance)
       (targets : List (Nat × Option String)) (today : Date)
       (l1 l2 : List Contact) (c : Contact),
      process_campaign_contact ct inst targets c today = none →
      (l1 ++ c :: l2).filterMap
        (fun c0 => process_campaign_contact ct inst targets c0 today) =
      (l1 ++ l2).filterMap
        (fun c0 => process_campaign_contact ct inst targets c0 today)) := by
  constructor
  · intro ct inst targets c today hbad
    unfold process_campaign_contact
    rcases hbad with h | ⟨tstr, hl, hp⟩ | ⟨tstr, trigger, hl, hp, hlt⟩
    · rw [h]
    · rw [hl]
      dsimp only
      rw [hp]
    · rw [hl]
      dsimp only
      rw [hp]
      dsimp only
      rw [if_pos hlt]
  · intro ct inst targets today l1 l2 c hc
    rw [List.filterMap_append, List.filterMap_append]
    congr 1
    rw [List.filterMap_cons_none]
    exact hc

/-- Witness for C9 at concrete inputs: a NULL trigger, a malformed trigger,
and a past send date each produce no row, and the surrounding contact list
is processed as if the bad contact were absent. -/
theorem claim_C9_witness :
    process_campaign_contact
        ⟨"rate_increase", true, true, 14, false, 1⟩
        ⟨1, "rate_increase", "q1", some "tpl", none⟩
        [(4, none)]
        ⟨4, "t@x.c", "TX", "75001", some "1970-03-10", none⟩ ⟨2024, 1, 1⟩ = none ∧
    process_campaign_contact
        ⟨"rate_increase", true, true, 14, false, 1⟩
        ⟨1, "rate_increase", "q1", some "tpl", none⟩
        [(4, some "not-a-date")]
        ⟨4, "t@x.c", "TX", "75001", some "1970-03-10", none⟩ ⟨2024, 1, 1⟩ = none ∧
    process_campaign_contact
        ⟨"rate_increase", true, true, 14, false, 1⟩
        ⟨1, "rate_increase", "q1", some "tpl", none⟩
        [(4, some "2024-01-10")]
        ⟨4, "t@x.c", "TX", "75001", some "1970-03-10", none⟩ ⟨2024, 1, 1⟩ = none ∧
    ([(⟨5, "a@b.c", "TX", "75001", none, none⟩ : Contact)] ++
        (⟨4, "t@x.c", "TX", "75001", some "1970-03-10", none⟩ : Contact) ::
        [(⟨6, "c@d.e", "TX", "75001", none, none⟩ : Contact)]).filterMap
      (fun c0 => process_campaign_contact
        ⟨"rate_increase", true, true, 14, false, 1⟩
        ⟨1, "rate_increase", "q1", some "tpl", none⟩
        [(4, none)] c0 ⟨2024, 1, 1⟩) =
    ([(⟨5, "a@b.c", "TX", "75001", none, none⟩ : Contact)] ++
        [(⟨6, "c@d.e", "TX", "75001", none, none⟩ : Contact)]).filterMap
      (fun c0 => process_campaign_contact
        ⟨"rate_increase", true, true, 14, false, 1⟩
        ⟨1, "rate_increase", "q1", some "tpl", none⟩
        [(4, none)] c0 ⟨2024, 1, 1⟩) :=
  ⟨claim_C9.1 ⟨"rate_increase", true, true, 14, false, 1⟩
      ⟨1, "rate_increase", "q1", some "tpl", none⟩ [(4, none)]
      ⟨4, "t@x.c", "TX", "75001", some "1970-03-10", none⟩ ⟨2024, 1, 1⟩
      (Or.inl (by decide)),
   claim_C9.1 ⟨"rate_increase", true, true, 14, false, 1⟩
      ⟨1, "rate_increase", "q1", some "tpl", none⟩ [(4, some "not-a-date")]
      ⟨4, "t@x.c", "TX", "75001", some "1970-03-10", none⟩ ⟨2024, 1, 1⟩
      (Or.inr (Or.inl ⟨"not-a-date", by decide, by decide⟩)),
   claim_C9.1 ⟨"rate_increase", true, true, 14, false, 1⟩
      ⟨1, "rate_increase", "q1", some "tpl", none⟩ [(4, some "2024-01-10")]
      ⟨4, "t@x.c", "TX", "75001", some "1970-03-10", none⟩ ⟨2024, 1, 1⟩
      (Or.inr (Or.inr ⟨"2024-01-10", ⟨2024, 1, 10⟩, by decide, by decide, by decide⟩)),
   claim_C9.2 ⟨"rate_increase", true, true, 14, false, 1⟩
      ⟨1, "rate_increase", "q1", some "tpl", none⟩ [(4, none)] ⟨2024, 1, 1⟩
      [⟨5, "a@b.c", "TX", "75001", none, none⟩]
      [⟨6, "c@d.e", "TX", "75001", none, none⟩]
      ⟨4, "t@x.c", "TX", "75001", some "1970-03-10", none⟩ (by decide)⟩

/-! ## Claim C7

The spec states the intended contract: a follow-up is suppressed iff its
send date falls inside the contact's exclusion window under the full §4.1
test.  The follow-up pass instead uses the simplified check
`followup_is_date_in_exclusion_window`, which only looks at whether the
state is year-round and ignores the send date, so the contract fails on the
code: for a CA contact whose follow-up send date lies inside the CA
birthday exclusion window, the full test is `true` but the simplified check
is `false` and a row is written. -/

/-- C7 (divergence): for a CA contact born 1960-07-01 with an initial mail
sent 2024-04-28 and today = 2024-05-01, the follow-up send date 2024-05-02
lies inside the full §4.1 exclusion window (2024-04-02 … 2024-08-30), yet
the follow-up pass's simplified check returns `false` and the pass writes
the row instead of suppressing it. -/
theorem claim_C7_code_divergence :
    calculate_followup_send_date ⟨2024, 4, 28⟩ ⟨2024, 5, 1⟩ = ⟨2024, 5, 2⟩ ∧
    is_date_in_exclusion_window ⟨2024, 5, 2⟩
      ⟨1, "a@b.c", "CA", "90001", some "1960-07-01", none⟩ ⟨2024, 5, 1⟩ = true ∧
    followup_is_date_in_exclusion_window
      ⟨fun _ => true,
       fun _ => some ("CA", some "1960-07-01", none),
       fun _ _ => {}, fun _ _ => none, fun _ => none⟩
      ⟨2024, 5, 2⟩ 1 = false ∧
    schedule_followups
      ⟨fun _ => true,
       fun _ => some ("CA", some "1960-07-01", none),
       fun _ _ => {}, fun _ _ => none, fun _ => none⟩
      [⟨10, 1, "birthday", ⟨2024, 4, 28⟩, none⟩] ⟨2024, 5, 1⟩ =
      [⟨1, "followup_1_cold", ⟨2024, 5, 2⟩, "08:30:00", "pre-scheduled", 4, 10,
        none, "followup_cold_template", none⟩] := by
  refine ⟨by decide, by decide, by decide, by decide⟩

end Scheduler
